import Mathlib

/-!
Verification development for the volatility trading system.

Shallow embedding conventions:
* Python floats are modelled as exact rationals (`ℚ`); decimal literals in the
  source are translated to the corresponding exact rational constants.
* Python ints are modelled as `Int` (counters that the source may drive
  negative are kept as `Int` so that nonnegativity is a theorem, not a type
  fact).
* `math.log` only feeds the opaque return history, so it is abstracted as a
  function parameter `logFn : ℚ → ℚ` of the simulation loop.
* `float("inf")` appears only as the chop score; the chop score is modelled as
  `Option ℚ` with `none` standing for `+∞`.
* Log/CSV formatting payloads (dates, f-string numeric rendering) are elided;
  the discrete event *kinds* that the loop emits are kept.
-/

/-- `CONTRACT_MULTIPLIER` from `risk/limits.py`, `execution/trades.py`,
`analytics/exposure.py`, `strategy/position_sizing.py` (all equal 100). -/
def CONTRACT_MULTIPLIER : ℚ := 100

/-- Python's builtin `round` to an integer: round half to even. -/
def pythonRound (x : ℚ) : Int :=
  let f := Int.floor x
  let frac := x - f
  if frac < 1/2 then f
  else if 1/2 < frac then f + 1
  else if f % 2 = 0 then f else f + 1

/-! ## `risk/kill_switch.py` -/

/-- Zone strings used by `KillSwitchAction.zone` ("green"/"yellow"/"red"). -/
inductive Zone
  | green
  | yellow
  | red
deriving DecidableEq, Repr

/-- `KillSwitchAction` dataclass. -/
structure KillSwitchAction where
  flatten_positions : Bool := false
  size_factor : ℚ := 1
  zone : Zone := Zone.green
  reasons : List String := []
deriving DecidableEq, Repr

/-- `KillSwitch` dataclass (thresholds G1 < G2, size factors, D1). -/
structure KillSwitch where
  gamma_green_threshold : ℚ := 5
  gamma_red_threshold : ℚ := 10
  gamma_yellow_size_factor : ℚ := 1/2
  gamma_red_size_factor : ℚ := 1/4
  kill_drawdown_threshold : ℚ := 12/100
deriving DecidableEq, Repr

/-- `KillSwitch.evaluate` from `risk/kill_switch.py`. -/
def KillSwitch.evaluate (ks : KillSwitch) (gamma_risk total_drawdown : ℚ) :
    KillSwitchAction :=
  if gamma_risk ≤ ks.gamma_green_threshold then
    { zone := Zone.green, size_factor := 1 }
  else if gamma_risk ≤ ks.gamma_red_threshold then
    { zone := Zone.yellow, size_factor := ks.gamma_yellow_size_factor,
      reasons := ["GAMMA_YELLOW_THROTTLE"] }
  else if total_drawdown > ks.kill_drawdown_threshold then
    { zone := Zone.red, size_factor := ks.gamma_red_size_factor,
      reasons := ["GAMMA_RED_THROTTLE", "GAMMA_RED_DRAWDOWN_KILL"],
      flatten_positions := true }
  else
    { zone := Zone.red, size_factor := ks.gamma_red_size_factor,
      reasons := ["GAMMA_RED_THROTTLE"] }

/-! ## `risk/limits.py` -/

/-- `RiskLimits` dataclass. -/
structure RiskLimits where
  initial_capital : ℚ
  max_capital_at_risk : ℚ := 20/100
  max_leverage : ℚ := 6
  max_abs_gamma : ℚ := 75
  max_abs_vega : ℚ := 300
deriving DecidableEq, Repr

/-- `RiskLimits.trade_allowed` from `risk/limits.py`: five short-circuit
checks, returning the first failing reason. -/
def RiskLimits.trade_allowed (rl : RiskLimits)
    (projected_option_contracts : Int) (option_price : ℚ)
    (projected_notional projected_gamma_abs projected_vega_abs
     projected_equity : ℚ) : Bool × String :=
  if projected_equity ≤ 0 then (false, "Equity exhausted")
  else if
      |(projected_option_contracts : ℚ) * option_price * CONTRACT_MULTIPLIER|
        / projected_equity > rl.max_capital_at_risk then
    (false, "Blocked: capital-at-risk limit breached")
  else if projected_notional / projected_equity > rl.max_leverage then
    (false, "Blocked: leverage limit breached")
  else if projected_gamma_abs > rl.max_abs_gamma then
    (false, "Blocked: gamma limit breached")
  else if projected_vega_abs > rl.max_abs_vega then
    (false, "Blocked: vega limit breached")
  else (true, "")

/-! ## `analytics/exposure.py` -/

/-- The dict returned by `compute_exposures`. -/
structure Exposures where
  delta_exposure : ℚ
  gamma_exposure : ℚ
  vega_exposure : ℚ
  option_notional : ℚ
  hedge_notional : ℚ
  notional_exposure : ℚ
deriving DecidableEq, Repr

/-- `compute_exposures` from `analytics/exposure.py`. -/
def compute_exposures (option_contracts hedge_shares : Int)
    (spot_price option_price option_delta option_gamma option_vega : ℚ) :
    Exposures :=
  let option_delta_shares :=
    (option_contracts : ℚ) * option_delta * CONTRACT_MULTIPLIER
  let total_delta := option_delta_shares + (hedge_shares : ℚ)
  let gamma_exposure := (option_contracts : ℚ) * option_gamma * CONTRACT_MULTIPLIER
  let vega_exposure := (option_contracts : ℚ) * option_vega * CONTRACT_MULTIPLIER
  let option_notional := |(option_contracts : ℚ) * option_price * CONTRACT_MULTIPLIER|
  let hedge_notional := |(hedge_shares : ℚ) * spot_price|
  { delta_exposure := total_delta
    gamma_exposure := gamma_exposure
    vega_exposure := vega_exposure
    option_notional := option_notional
    hedge_notional := hedge_notional
    notional_exposure := option_notional + hedge_notional }

/-! ## `analytics/drawdown.py` -/

/-- `DrawdownTracker` dataclass. -/
structure DrawdownTracker where
  peak_equity : ℚ
  max_drawdown : ℚ := 0
deriving DecidableEq, Repr

/-- `DrawdownTracker.peek`: drawdown without mutating tracker state. -/
def DrawdownTracker.peek (t : DrawdownTracker) (equity : ℚ) : ℚ :=
  let peak := max t.peak_equity equity
  if peak ≤ 0 then 0
  else max 0 ((peak - equity) / peak)

/-- `DrawdownTracker.update`: raises the peak, returns the current drawdown
together with the updated tracker. -/
def DrawdownTracker.update (t : DrawdownTracker) (equity : ℚ) :
    DrawdownTracker × ℚ :=
  let t := if equity > t.peak_equity then { t with peak_equity := equity } else t
  let current_drawdown := t.peek equity
  let t :=
    if current_drawdown > t.max_drawdown then
      { t with max_drawdown := current_drawdown }
    else t
  (t, current_drawdown)

/-! ## `execution/trades.py` -/

/-- `OptionTradeResult` dataclass. -/
structure OptionTradeResult where
  new_contracts : Int
  cash : ℚ
  traded_contracts : Int
  notional_traded : ℚ
  fees : ℚ
  slippage : ℚ
deriving DecidableEq, Repr

/-- `execute_option_trade` from `execution/trades.py`
(defaults `fee_per_contract=0.65`, `slippage_bps=5.0`). -/
def execute_option_trade (current_contracts target_contracts : Int)
    (option_price cash : ℚ) (fee_per_contract : ℚ := 65/100)
    (slippage_bps : ℚ := 5) : OptionTradeResult :=
  let trade_qty := target_contracts - current_contracts
  let notional := (trade_qty.natAbs : ℚ) * option_price * CONTRACT_MULTIPLIER
  let fees := (trade_qty.natAbs : ℚ) * fee_per_contract
  let slippage := notional * (slippage_bps / 10000)
  let cash_change :=
    -((trade_qty : ℚ) * option_price * CONTRACT_MULTIPLIER) - fees - slippage
  { new_contracts := target_contracts
    cash := cash + cash_change
    traded_contracts := trade_qty
    notional_traded := notional
    fees := fees
    slippage := slippage }

/-! ## `execution/hedge.py` -/

/-- `HedgeTradeResult` dataclass. -/
structure HedgeTradeResult where
  new_shares : Int
  cash : ℚ
  traded_shares : Int
  notional_traded : ℚ
  fees : ℚ
  slippage : ℚ
deriving DecidableEq, Repr

/-- `rebalance_delta_hedge` from `execution/hedge.py`
(defaults `fee_per_share=0.005`, `slippage_bps=1.0`). -/
def rebalance_delta_hedge (current_shares target_shares : Int)
    (spot_price cash : ℚ) (fee_per_share : ℚ := 5/1000)
    (slippage_bps : ℚ := 1) : HedgeTradeResult :=
  let trade_shares := target_shares - current_shares
  let notional := (trade_shares.natAbs : ℚ) * spot_price
  let fees := (trade_shares.natAbs : ℚ) * fee_per_share
  let slippage := notional * (slippage_bps / 10000)
  let cash_change := -((trade_shares : ℚ) * spot_price) - fees - slippage
  { new_shares := target_shares
    cash := cash + cash_change
    traded_shares := trade_shares
    notional_traded := notional
    fees := fees
    slippage := slippage }

/-! ## `strategy/position_sizing.py` -/

/-- `target_option_contracts` from `strategy/position_sizing.py`. -/
def target_option_contracts (signal : Int) (option_price capital_base
    max_capital_at_risk : ℚ) (size_factor : ℚ := 1) : Int :=
  if signal = 0 ∨ option_price ≤ 0 ∨ capital_base ≤ 0 then 0
  else
    let bounded_size := max 0 (min size_factor 1)
    let risk_budget := capital_base * max_capital_at_risk * bounded_size
    let per_contract_notional := option_price * CONTRACT_MULTIPLIER
    let contracts := Int.floor (risk_budget / per_contract_notional)
    if contracts ≤ 0 then 0
    else if signal > 0 then contracts else -contracts

/-- `target_contracts_by_vega_budget` from `strategy/position_sizing.py`. -/
def target_contracts_by_vega_budget (signal : Int) (capital_base option_vega
    max_abs_vega_ratio : ℚ) (size_factor : ℚ := 1) : Int :=
  if signal = 0 ∨ capital_base ≤ 0 ∨ option_vega ≤ 0 then 0
  else
    let bounded_size := max 0 (min size_factor 1)
    let target_abs_vega := capital_base * max 0 max_abs_vega_ratio * bounded_size
    let per_contract_vega := option_vega * CONTRACT_MULTIPLIER
    let contracts := Int.floor (target_abs_vega / per_contract_vega)
    if contracts ≤ 0 then 0
    else if signal > 0 then contracts else -contracts

/-! ## `main.py`: projected-trade evaluation and the risk clamp -/

/-- `gamma_risk_metric` from `main.py`. -/
def gamma_risk_metric (gamma_exposure spot_price : ℚ) : ℚ :=
  |gamma_exposure| * max spot_price 0 * (1/10000)

/-- `evaluate_projected_trade` from `main.py`. -/
def evaluate_projected_trade (risk_limits : RiskLimits)
    (projected_option_contracts : Int)
    (spot_price option_price option_delta option_gamma option_vega
     projected_equity : ℚ) : Bool × String × Exposures :=
  let projected_hedge_shares :=
    pythonRound (-(projected_option_contracts : ℚ) * option_delta * 100)
  let projected_exposure := compute_exposures projected_option_contracts
    projected_hedge_shares spot_price option_price option_delta option_gamma
    option_vega
  let r := risk_limits.trade_allowed projected_option_contracts option_price
    projected_exposure.notional_exposure |projected_exposure.gamma_exposure|
    |projected_exposure.vega_exposure| projected_equity
  (r.1, r.2, projected_exposure)

/-- The `while low <= high` binary-search loop of `clamp_target_to_risk_limits`.
The Python variable `high` (which can reach `-1`) is represented by the natural
number `high1 = high + 1`, so the loop guard `low <= high` becomes
`low < high1` and `mid = (low + high) // 2` becomes `(low + high1 - 1) / 2`. -/
def clampLoop (allowed : Int → Bool) (sign : Int) :
    Nat → Nat → Nat → Nat
  | low, high1, best =>
    if h : low < high1 then
      let mid := (low + high1 - 1) / 2
      if allowed (sign * mid) then clampLoop allowed sign (mid + 1) high1 mid
      else clampLoop allowed sign low mid best
    else best
termination_by low high1 _ => high1 - low
decreasing_by
  · have hmid : low ≤ (low + high1 - 1) / 2 := by
      have : low + low ≤ low + high1 - 1 := by omega
      calc low = (low + low) / 2 := by omega
        _ ≤ (low + high1 - 1) / 2 := Nat.div_le_div_right this
    omega
  · have hmid : (low + high1 - 1) / 2 < high1 := by
      have h2 : low + high1 - 1 < high1 * 2 := by omega
      exact Nat.div_lt_of_lt_mul (by omega)
    omega

/-- `clamp_target_to_risk_limits` from `main.py`: binary search over the
integer magnitude in `[0, |desired|]`. -/
def clamp_target_to_risk_limits (risk_limits : RiskLimits)
    (desired_contracts : Int)
    (spot_price option_price option_delta option_gamma option_vega
     projected_equity : ℚ) : Int :=
  if desired_contracts = 0 then 0
  else
    let sign : Int := if desired_contracts > 0 then 1 else -1
    let allowed : Int → Bool := fun candidate =>
      (evaluate_projected_trade risk_limits candidate spot_price option_price
        option_delta option_gamma option_vega projected_equity).1
    sign * (clampLoop allowed sign 0 (desired_contracts.natAbs + 1) 0 : Nat)

/-! ## `strategy/signal.py` -/

/-- `StrategyMode` literal type ("short" / "long" / "adaptive"). -/
inductive Mode
  | short
  | long
  | adaptive
deriving DecidableEq, Repr

/-- `Stance` literal type ("SHORT_VOL" / "LONG_VOL" / "FLAT" / "PAUSED"). -/
inductive Stance
  | FLAT
  | SHORT_VOL
  | LONG_VOL
  | PAUSED
deriving DecidableEq, Repr

/-- `SignalConfig` dataclass.  Window sizes are modelled as `Nat` (the
rolling-mean window is floored at 1 by `_rolling_mean` anyway); bar counters
that the code compares and decrements are kept as `Int`. -/
structure SignalConfig where
  rv_short_window : Nat := 30
  rv_medium_window : Nat := 240
  trend_window : Nat := 120
  long_chop_window : Nat := 30
  short_edge_threshold : ℚ := 2/100
  short_edge_collapse_tolerance : ℚ := 5/1000
  short_trend_threshold : ℚ := 4/1000
  short_jump_threshold : ℚ := 6/1000
  short_rv_change_threshold : ℚ := 6/100
  long_edge_threshold : ℚ := 15/1000
  long_max_iv_premium : ℚ := 3/100
  long_edge_collapse_tolerance : ℚ := 5/1000
  long_rv_rise_threshold : ℚ := 3/1000
  long_chop_threshold : ℚ := 25/100000
  long_two_way_chop_score_threshold : ℚ := 2
  long_two_way_trend_threshold : ℚ := 8/1000
  cooldown_bars : Int := 30
  adaptive_enter_persist_bars : Int := 3
  adaptive_exit_persist_bars : Int := 2
  adaptive_pause_bars : Int := 30
  adaptive_short_edge_enter : ℚ := 2/100
  adaptive_short_edge_exit : ℚ := 1/100
  adaptive_short_trend_enter : ℚ := 4/1000
  adaptive_short_trend_exit : ℚ := 6/1000
  adaptive_vov_low : ℚ := 3/1000
  adaptive_vov_high : ℚ := 6/1000
  adaptive_vov_exit : ℚ := 4/1000
  adaptive_long_cheapness_enter : ℚ := 3/1000
  adaptive_long_cheapness_exit : ℚ := 15/10000
  adaptive_long_trend_max : ℚ := 8/1000
  adaptive_confidence_buffer : ℚ := 1/1000

/-- `SignalConfig.min_warmup_bars` property. -/
def SignalConfig.min_warmup_bars (cfg : SignalConfig) : Nat :=
  max cfg.rv_short_window (max cfg.rv_medium_window cfg.trend_window)

/-- `SignalDecision` dataclass. -/
structure SignalDecision where
  stance : Stance
  signal : Int
  reason : String
  pricing_filter_passed : Bool
  path_filter_passed : Bool
  instability_filter_passed : Bool
  two_way_filter_passed : Bool
  edge : ℚ
  edge_velocity : ℚ
  rv_short : ℚ
  rv_medium : ℚ
  trend_strength : ℚ
  jump_abs_return : ℚ
  rv_change : ℚ
  choppiness : ℚ
  chop_score : Option ℚ
  cooldown_remaining : Int
  cooldown_active : Bool

/-- `_rolling_mean`: mean of the last `min(window, len)` values, window
floored at 1; 0 on an empty list. -/
def rollingMean (values : List ℚ) (window : Nat) : ℚ :=
  if values = [] then 0
  else
    let w := max 1 (min window values.length)
    let subset := values.drop (values.length - w)
    subset.sum / (subset.length : ℚ)

/-- `_safe_price_trend_strength`. -/
def safePriceTrendStrength (spot : ℚ) (prices : List ℚ) (window : Nat) : ℚ :=
  let baseline := rollingMean prices window
  if baseline ≤ 0 then 0
  else |spot / baseline - 1|

/-- `_signal_for_stance`. -/
def signalForStance : Stance → Int
  | Stance.LONG_VOL => 1
  | Stance.SHORT_VOL => -1
  | _ => 0

/-- The metrics dict produced by `RegimeSignalEngine._base_metrics`
(`chop_score = none` models `float("inf")`). -/
structure Metrics where
  rv_short : ℚ
  rv_medium : ℚ
  edge : ℚ
  edge_velocity : ℚ
  trend_strength : ℚ
  jump_abs_return : ℚ
  rv_change : ℚ
  choppiness : ℚ
  chop_score : Option ℚ

/-- `RegimeSignalEngine._base_metrics`.  The source also assigns
`self.prev_edge = edge`; the caller (`decide`) performs that state update with
`m.edge` below. -/
def baseMetrics (cfg : SignalConfig) (prev_edge : Option ℚ) (implied_vol : ℚ)
    (realized_vol_series : List ℚ) (spot : ℚ)
    (price_series return_series : List ℚ) : Metrics :=
  let rv_short := rollingMean realized_vol_series cfg.rv_short_window
  let rv_medium := rollingMean realized_vol_series cfg.rv_medium_window
  let edge := implied_vol - rv_short
  let edge_velocity :=
    match prev_edge with
    | none => 0
    | some p => edge - p
  let trend_strength := safePriceTrendStrength spot price_series cfg.trend_window
  let jump_abs_return :=
    match return_series.getLast? with
    | none => 0
    | some r => |r|
  let rv_change := |rv_short - rv_medium|
  let choppiness := rollingMean (return_series.map (fun r => |r|)) cfg.long_chop_window
  let avg_return := rollingMean return_series cfg.long_chop_window
  let denom := |avg_return|
  let chop_score : Option ℚ :=
    if denom > 1/10^12 then some (choppiness / denom) else none
  { rv_short := rv_short
    rv_medium := rv_medium
    edge := edge
    edge_velocity := edge_velocity
    trend_strength := trend_strength
    jump_abs_return := jump_abs_return
    rv_change := rv_change
    choppiness := choppiness
    chop_score := chop_score }

/-- `RegimeSignalEngine` class: config and the mutable engine fields.
`self.mode` is assigned once in `__init__` and never reassigned, so the
immutable mode is modelled as an explicit parameter of `decide` and
`force_pause` rather than as a stored field. -/
structure RegimeSignalEngine where
  config : SignalConfig
  prev_edge : Option ℚ := none
  prev_stance : Stance := Stance.FLAT
  cooldown_remaining : Int := 0
  adaptive_state : Stance := Stance.FLAT
  adaptive_pause_remaining : Int := 0
  adaptive_short_enter_count : Int := 0
  adaptive_long_enter_count : Int := 0
  adaptive_short_exit_count : Int := 0
  adaptive_long_exit_count : Int := 0
  adaptive_pause_reason : String := ""

/-- `RegimeSignalEngine.force_pause`. -/
def RegimeSignalEngine.force_pause (s : RegimeSignalEngine) (mode : Mode)
    (bars : Int) (reason : String) : RegimeSignalEngine :=
  let pause_bars := max 0 bars
  if pause_bars ≤ 0 then s
  else if mode = Mode.adaptive ∨ mode = Mode.long then
    { s with adaptive_state := Stance.PAUSED
             adaptive_pause_remaining := max s.adaptive_pause_remaining pause_bars
             adaptive_short_enter_count := 0
             adaptive_long_enter_count := 0
             adaptive_short_exit_count := 0
             adaptive_long_exit_count := 0
             adaptive_pause_reason := reason
             prev_stance := Stance.PAUSED }
  else { s with cooldown_remaining := max s.cooldown_remaining pause_bars }

/-- `RegimeSignalEngine._adaptive_short_enter_ok`. -/
def adaptiveShortEnterOk (cfg : SignalConfig) (m : Metrics) : Bool :=
  decide (m.edge > cfg.adaptive_short_edge_enter
    ∧ m.trend_strength < cfg.adaptive_short_trend_enter
    ∧ m.rv_change < cfg.adaptive_vov_low)

/-- `RegimeSignalEngine._adaptive_short_exit_ok`. -/
def adaptiveShortExitOk (cfg : SignalConfig) (m : Metrics) : Bool :=
  decide (m.edge < cfg.adaptive_short_edge_exit
    ∨ m.trend_strength > cfg.adaptive_short_trend_exit
    ∨ m.rv_change > cfg.adaptive_vov_high)

/-- `RegimeSignalEngine._adaptive_long_enter_ok` (cheapness = −edge). -/
def adaptiveLongEnterOk (cfg : SignalConfig) (m : Metrics) : Bool :=
  decide (-m.edge > cfg.adaptive_long_cheapness_enter
    ∧ m.rv_change > cfg.adaptive_vov_high
    ∧ m.trend_strength < cfg.adaptive_long_trend_max)

/-- `RegimeSignalEngine._adaptive_long_exit_ok`. -/
def adaptiveLongExitOk (cfg : SignalConfig) (m : Metrics) : Bool :=
  decide (-m.edge < cfg.adaptive_long_cheapness_exit
    ∨ m.rv_change < cfg.adaptive_vov_exit)

/-- The `short_strength` linear combination of the adaptive tie-break
(`strategy/signal.py` lines 313–317). -/
def adaptiveShortStrength (cfg : SignalConfig) (m : Metrics) : ℚ :=
  (m.edge - cfg.adaptive_short_edge_enter)
    + (cfg.adaptive_short_trend_enter - m.trend_strength)
    + (cfg.adaptive_vov_low - m.rv_change)

/-- The `long_strength` linear combination of the adaptive tie-break
(`strategy/signal.py` lines 318–322). -/
def adaptiveLongStrength (cfg : SignalConfig) (m : Metrics) : ℚ :=
  ((-m.edge) - cfg.adaptive_long_cheapness_enter)
    + (m.rv_change - cfg.adaptive_vov_high)
    + (cfg.adaptive_long_trend_max - m.trend_strength)

/-- Intermediate bundle for one `decide` call: the mutated engine plus the
local variables `stance`, `reason`, filter flags and `cooldown_active`. -/
structure BranchResult where
  s : RegimeSignalEngine
  stance : Stance
  reason : String
  pricing_ok : Bool
  path_ok : Bool
  instability_ok : Bool
  two_way_ok : Bool
  cooldown_active : Bool

/-- The `self.mode == "adaptive"` branch of `RegimeSignalEngine.decide`
(including the trailing `if self.adaptive_state == "FLAT"` block and the final
`self.cooldown_remaining = self.adaptive_pause_remaining` assignment). -/
def decideAdaptiveBody (s : RegimeSignalEngine) (m : Metrics) : BranchResult :=
  let cfg := s.config
  let enter_persist := max 1 cfg.adaptive_enter_persist_bars
  let exit_persist := max 1 cfg.adaptive_exit_persist_bars
  let short_enter_ok := adaptiveShortEnterOk cfg m
  let long_enter_ok := adaptiveLongEnterOk cfg m
  let short_exit_ok := adaptiveShortExitOk cfg m
  let long_exit_ok := adaptiveLongExitOk cfg m
  let pricing_ok := short_enter_ok || long_enter_ok
  let path_ok := short_enter_ok
  let instability_ok := long_enter_ok
  let two_way_ok := decide (m.trend_strength < cfg.adaptive_long_trend_max)
  -- `elif` chain on `self.adaptive_state` (no case for FLAT: handled below).
  let r1 : RegimeSignalEngine × Stance × String × Bool :=
    if s.adaptive_state = Stance.PAUSED then
      let s :=
        if s.adaptive_pause_remaining > 0 then
          { s with adaptive_pause_remaining := s.adaptive_pause_remaining - 1 }
        else s
      let s := { s with cooldown_remaining := s.adaptive_pause_remaining }
      let pause_reason :=
        if s.adaptive_pause_reason ≠ "" then s.adaptive_pause_reason else "cooldown"
      if s.adaptive_pause_remaining ≤ 0 then
        ({ s with adaptive_state := Stance.FLAT, adaptive_pause_reason := "" },
          Stance.FLAT, "FLAT: pause complete", true)
      else (s, Stance.PAUSED, "PAUSED: " ++ pause_reason, true)
    else if s.adaptive_state = Stance.SHORT_VOL then
      let s :=
        if short_exit_ok then
          { s with adaptive_short_exit_count := s.adaptive_short_exit_count + 1 }
        else { s with adaptive_short_exit_count := 0 }
      if s.adaptive_short_exit_count ≥ exit_persist then
        let s := { s with adaptive_state := Stance.PAUSED
                          adaptive_pause_remaining := max 0 cfg.adaptive_pause_bars
                          adaptive_pause_reason := "short exit"
                          adaptive_short_exit_count := 0
                          adaptive_short_enter_count := 0
                          adaptive_long_enter_count := 0 }
        let cooldown_active := decide (s.adaptive_pause_remaining > 0)
        let s := { s with cooldown_remaining := s.adaptive_pause_remaining }
        (s, if cooldown_active then Stance.PAUSED else Stance.FLAT,
          "PAUSED: short exit", cooldown_active)
      else (s, Stance.SHORT_VOL, "SHORT: regime active", false)
    else if s.adaptive_state = Stance.LONG_VOL then
      let s :=
        if long_exit_ok then
          { s with adaptive_long_exit_count := s.adaptive_long_exit_count + 1 }
        else { s with adaptive_long_exit_count := 0 }
      if s.adaptive_long_exit_count ≥ exit_persist then
        let s := { s with adaptive_state := Stance.PAUSED
                          adaptive_pause_remaining := max 0 cfg.adaptive_pause_bars
                          adaptive_pause_reason := "long exit"
                          adaptive_long_exit_count := 0
                          adaptive_short_enter_count := 0
                          adaptive_long_enter_count := 0 }
        let cooldown_active := decide (s.adaptive_pause_remaining > 0)
        let s := { s with cooldown_remaining := s.adaptive_pause_remaining }
        (s, if cooldown_active then Stance.PAUSED else Stance.FLAT,
          "PAUSED: long exit", cooldown_active)
      else (s, Stance.LONG_VOL, "LONG: regime active", false)
    else (s, Stance.FLAT, "FLAT: warmup", false)
  let s1 := r1.1
  -- `if self.adaptive_state == "FLAT":` (also runs right after a pause ends).
  let r2 : RegimeSignalEngine × Stance × String × Bool :=
    if s1.adaptive_state = Stance.FLAT then
      let s1 :=
        if short_enter_ok then
          { s1 with adaptive_short_enter_count := s1.adaptive_short_enter_count + 1 }
        else { s1 with adaptive_short_enter_count := 0 }
      let s1 :=
        if long_enter_ok then
          { s1 with adaptive_long_enter_count := s1.adaptive_long_enter_count + 1 }
        else { s1 with adaptive_long_enter_count := 0 }
      let selected_stance : Stance :=
        if s1.adaptive_short_enter_count ≥ enter_persist
            ∧ s1.adaptive_long_enter_count ≥ enter_persist then
          let short_strength := adaptiveShortStrength cfg m
          let long_strength := adaptiveLongStrength cfg m
          if |short_strength - long_strength| ≥ cfg.adaptive_confidence_buffer then
            (if short_strength ≥ long_strength then Stance.SHORT_VOL
             else Stance.LONG_VOL)
          else Stance.FLAT
        else if s1.adaptive_short_enter_count ≥ enter_persist then Stance.SHORT_VOL
        else if s1.adaptive_long_enter_count ≥ enter_persist then Stance.LONG_VOL
        else Stance.FLAT
      if selected_stance = Stance.SHORT_VOL then
        ({ s1 with adaptive_state := Stance.SHORT_VOL
                   adaptive_short_exit_count := 0
                   adaptive_long_exit_count := 0 },
          Stance.SHORT_VOL, "SHORT: adaptive enter persisted", r1.2.2.2)
      else if selected_stance = Stance.LONG_VOL then
        ({ s1 with adaptive_state := Stance.LONG_VOL
                   adaptive_short_exit_count := 0
                   adaptive_long_exit_count := 0 },
          Stance.LONG_VOL, "LONG: adaptive enter persisted", r1.2.2.2)
      else (s1, Stance.FLAT, "FLAT: no adaptive regime", r1.2.2.2)
    else r1
  let s2 := { r2.1 with cooldown_remaining := r2.1.adaptive_pause_remaining }
  { s := s2, stance := r2.2.1, reason := r2.2.2.1
    pricing_ok := pricing_ok, path_ok := path_ok
    instability_ok := instability_ok, two_way_ok := two_way_ok
    cooldown_active := r2.2.2.2 }

/-- The `self.mode == "long"` branch of `RegimeSignalEngine.decide`. -/
def decideLongBody (s : RegimeSignalEngine) (m : Metrics) : BranchResult :=
  let cfg := s.config
  let enter_persist := max 1 cfg.adaptive_enter_persist_bars
  let exit_persist := max 1 cfg.adaptive_exit_persist_bars
  let long_enter_ok := adaptiveLongEnterOk cfg m
  let long_exit_ok := adaptiveLongExitOk cfg m
  let pricing_ok := long_enter_ok
  let instability_ok := long_enter_ok
  let two_way_ok := decide (m.trend_strength < cfg.adaptive_long_trend_max)
  let path_ok := true
  let r1 : RegimeSignalEngine × Stance × String × Bool :=
    if s.adaptive_state = Stance.PAUSED then
      let s :=
        if s.adaptive_pause_remaining > 0 then
          { s with adaptive_pause_remaining := s.adaptive_pause_remaining - 1 }
        else s
      let s := { s with cooldown_remaining := s.adaptive_pause_remaining }
      let pause_reason :=
        if s.adaptive_pause_reason ≠ "" then s.adaptive_pause_reason else "cooldown"
      if s.adaptive_pause_remaining ≤ 0 then
        ({ s with adaptive_state := Stance.FLAT, adaptive_pause_reason := "" },
          Stance.FLAT, "FLAT: pause complete", true)
      else (s, Stance.PAUSED, "PAUSED: " ++ pause_reason, true)
    else if s.adaptive_state = Stance.LONG_VOL then
      let s :=
        if long_exit_ok then
          { s with adaptive_long_exit_count := s.adaptive_long_exit_count + 1 }
        else { s with adaptive_long_exit_count := 0 }
      if s.adaptive_long_exit_count ≥ exit_persist then
        let s := { s with adaptive_state := Stance.PAUSED
                          adaptive_pause_remaining := max 0 cfg.adaptive_pause_bars
                          adaptive_pause_reason := "long exit"
                          adaptive_long_exit_count := 0
                          adaptive_long_enter_count := 0 }
        let cooldown_active := decide (s.adaptive_pause_remaining > 0)
        let s := { s with cooldown_remaining := s.adaptive_pause_remaining }
        (s, if cooldown_active then Stance.PAUSED else Stance.FLAT,
          "PAUSED: long exit", cooldown_active)
      else (s, Stance.LONG_VOL, "LONG: regime active", false)
    else
      -- Long-only mode shares adaptive-long semantics: any non-long state is FLAT.
      let s := { s with adaptive_state := Stance.FLAT }
      let s :=
        if long_enter_ok then
          { s with adaptive_long_enter_count := s.adaptive_long_enter_count + 1 }
        else { s with adaptive_long_enter_count := 0 }
      if s.adaptive_long_enter_count ≥ enter_persist then
        ({ s with adaptive_state := Stance.LONG_VOL, adaptive_long_exit_count := 0 },
          Stance.LONG_VOL, "LONG: adaptive enter persisted", false)
      else (s, Stance.FLAT, "FLAT: no long adaptive regime", false)
  let s1 := { r1.1 with cooldown_remaining := r1.1.adaptive_pause_remaining }
  { s := s1, stance := r1.2.1, reason := r1.2.2.1
    pricing_ok := pricing_ok, path_ok := path_ok
    instability_ok := instability_ok, two_way_ok := two_way_ok
    cooldown_active := r1.2.2.2 }

/-- The `self.mode == "short"` branch of `RegimeSignalEngine.decide`
(reached only when no cooldown is active). -/
def decideShortBody (cfg : SignalConfig) (m : Metrics) :
    Stance × String × Bool × Bool :=
  let pricing_ok := decide (m.edge ≥ cfg.short_edge_threshold
    ∧ m.edge_velocity ≥ -cfg.short_edge_collapse_tolerance)
  let path_ok := decide (m.trend_strength ≤ cfg.short_trend_threshold
    ∧ m.jump_abs_return ≤ cfg.short_jump_threshold
    ∧ m.rv_change ≤ cfg.short_rv_change_threshold)
  if pricing_ok && path_ok then
    (Stance.SHORT_VOL, "SHORT: edge+path OK", pricing_ok, path_ok)
  else
    let failed := (if !pricing_ok then ["pricing"] else [])
      ++ (if !path_ok then ["path"] else [])
    (Stance.FLAT,
      "FLAT: short gate fail (" ++ String.intercalate "+" failed ++ ")",
      pricing_ok, path_ok)

/-- `RegimeSignalEngine.decide`.  The final `else` branch of the source's
mode dispatch (legacy long-vol logic) is unreachable for the three declared
modes (`Mode` is closed) and is therefore not modelled. -/
def RegimeSignalEngine.decide (s : RegimeSignalEngine) (mode : Mode)
    (implied_vol : ℚ) (realized_vol_series : List ℚ) (spot : ℚ)
    (price_series return_series : List ℚ) :
    RegimeSignalEngine × SignalDecision :=
  let m := baseMetrics s.config s.prev_edge implied_vol realized_vol_series
    spot price_series return_series
  let s := { s with prev_edge := some m.edge }
  let br : BranchResult :=
    if price_series.length < s.config.min_warmup_bars then
      { s := s, stance := Stance.FLAT, reason := "FLAT: warmup"
        pricing_ok := false, path_ok := true, instability_ok := true
        two_way_ok := true, cooldown_active := false }
    else
      match mode with
      | Mode.adaptive => decideAdaptiveBody s m
      | Mode.long => decideLongBody s m
      | Mode.short =>
        if s.cooldown_remaining > 0 then
          { s := { s with cooldown_remaining := s.cooldown_remaining - 1 }
            stance := Stance.FLAT, reason := "FLAT: cooldown"
            pricing_ok := false, path_ok := true, instability_ok := true
            two_way_ok := true, cooldown_active := true }
        else
          let r := decideShortBody s.config m
          { s := s, stance := r.1, reason := r.2.1
            pricing_ok := r.2.2.1, path_ok := r.2.2.2
            instability_ok := true, two_way_ok := true
            cooldown_active := false }
  -- short-mode cooldown arming on a non-FLAT -> FLAT transition
  let br :=
    if mode = Mode.short ∧ br.stance = Stance.FLAT
        ∧ s.prev_stance ≠ Stance.FLAT ∧ s.config.cooldown_bars > 0 then
      { br with s := { br.s with cooldown_remaining := s.config.cooldown_bars } }
    else br
  let sFinal := { br.s with prev_stance := br.stance }
  (sFinal,
    { stance := br.stance
      signal := signalForStance br.stance
      reason := br.reason
      pricing_filter_passed := br.pricing_ok
      path_filter_passed := br.path_ok
      instability_filter_passed := br.instability_ok
      two_way_filter_passed := br.two_way_ok
      edge := m.edge
      edge_velocity := m.edge_velocity
      rv_short := m.rv_short
      rv_medium := m.rv_medium
      trend_strength := m.trend_strength
      jump_abs_return := m.jump_abs_return
      rv_change := m.rv_change
      choppiness := m.choppiness
      chop_score := m.chop_score
      cooldown_remaining := sFinal.cooldown_remaining
      cooldown_active := br.cooldown_active })

/-! ## `main.py`: the per-bar simulation loop (`run_single_mode`) -/

/-- `INITIAL_CAPITAL` from `main.py`. -/
def INITIAL_CAPITAL : ℚ := 10000

/-- The argparse-supplied parameters that the per-bar loop reads. -/
structure Args where
  max_leverage : ℚ
  max_abs_gamma : ℚ
  max_abs_vega : ℚ
  gamma_green_threshold : ℚ
  gamma_red_threshold : ℚ
  gamma_yellow_size_factor : ℚ
  gamma_red_size_factor : ℚ
  gamma_kill_drawdown_threshold : ℚ
  global_drawdown_kill_threshold : ℚ
  global_drawdown_throttle_threshold : ℚ
  global_drawdown_throttle_size_factor : ℚ
  long_catastrophic_kill_threshold : ℚ
  long_pause_drawdown_threshold : ℚ
  long_vega_budget_ratio : ℚ
  adaptive_pause_bars : Int
  cooldown_bars : Int

/-- One market-data row (the `date` string and unused columns are elided). -/
structure Bar where
  close : ℚ
  realized_vol : ℚ
  option_mid : ℚ
  iv : ℚ
  delta : ℚ
  gamma : ℚ
  vega : ℚ

/-- The kind of trade-override event the risk-limit check appends
(`RISK_ALLOW_DERISK` / `RISK_CLAMP` / `RISK_BLOCK`, or none). -/
inductive RiskOverride
  | noOverride
  | allowDerisk
  | clampEvent
  | blockEvent
deriving DecidableEq, Repr

/-- `risk_reasons.append(tag)` guarded by `if tag not in risk_reasons`. -/
def appendIfMissing (rs : List String) (tag : String) : List String :=
  if tag ∈ rs then rs else rs ++ [tag]

/-- The risk-limit check applied to the bar's execution target
(`main.py` lines 1157–1201): forced flattens bypass the limiter; otherwise a
blocked target is allowed when its magnitude is strictly below the opening
magnitude, else clamped, else the position is left at its opening size. -/
def riskCheckTarget (risk_limits : RiskLimits)
    (spot option_mid delta gamma vega equity_before_trade : ℚ)
    (opening_option_contracts target_contracts : Int) (forced_derisk : Bool) :
    Int × RiskOverride :=
  if forced_derisk then (target_contracts, RiskOverride.noOverride)
  else
    let trade_allowed := (evaluate_projected_trade risk_limits target_contracts
      spot option_mid delta gamma vega equity_before_trade).1
    if trade_allowed then (target_contracts, RiskOverride.noOverride)
    else if target_contracts.natAbs < opening_option_contracts.natAbs then
      (target_contracts, RiskOverride.allowDerisk)
    else
      let clamped_target := clamp_target_to_risk_limits risk_limits
        target_contracts spot option_mid delta gamma vega equity_before_trade
      if clamped_target.natAbs > opening_option_contracts.natAbs then
        (clamped_target, RiskOverride.clampEvent)
      else (opening_option_contracts, RiskOverride.blockEvent)

/-- The result of the mode-specific risk overlay (`main.py` lines 1032–1130). -/
structure OverlayResult where
  risk_reasons : List String
  effective_size_factor : ℚ
  flatten_for_risk : Bool
  adaptive_pause_side : String
  adaptive_pause_requires_invalid : Bool
  adaptive_pause_reason : String

/-- The mode-specific risk overlays stacked on the kill-switch result. -/
def riskOverlays (args : Args) (mode : Mode) (kill_action : KillSwitchAction)
    (drawdown_before_trade : ℚ) (opening_option_contracts : Int) :
    OverlayResult :=
  match mode with
  | Mode.short =>
    let risk_reasons := kill_action.reasons
    let effective_size_factor := kill_action.size_factor
    let flatten_for_risk := kill_action.flatten_positions
    if drawdown_before_trade ≥ args.global_drawdown_kill_threshold then
      { risk_reasons := appendIfMissing risk_reasons "GLOBAL_DRAWDOWN_KILL"
        effective_size_factor := effective_size_factor
        flatten_for_risk := true
        adaptive_pause_side := "", adaptive_pause_requires_invalid := false
        adaptive_pause_reason := "" }
    else if drawdown_before_trade ≥ args.global_drawdown_throttle_threshold then
      { risk_reasons := risk_reasons ++ ["GLOBAL_DRAWDOWN_THROTTLE"]
        effective_size_factor :=
          effective_size_factor * args.global_drawdown_throttle_size_factor
        flatten_for_risk := flatten_for_risk
        adaptive_pause_side := "", adaptive_pause_requires_invalid := false
        adaptive_pause_reason := "" }
    else
      { risk_reasons := risk_reasons
        effective_size_factor := effective_size_factor
        flatten_for_risk := flatten_for_risk
        adaptive_pause_side := "", adaptive_pause_requires_invalid := false
        adaptive_pause_reason := "" }
  | Mode.long =>
    let long_has_exposure := opening_option_contracts > 0
    let r0 : OverlayResult :=
      { risk_reasons := kill_action.reasons
        effective_size_factor := kill_action.size_factor
        flatten_for_risk := kill_action.flatten_positions
        adaptive_pause_side := "", adaptive_pause_requires_invalid := false
        adaptive_pause_reason := "" }
    let r1 : OverlayResult :=
      if drawdown_before_trade ≥ args.global_drawdown_kill_threshold
          ∧ long_has_exposure then
        { r0 with flatten_for_risk := true
                  adaptive_pause_side := "long"
                  adaptive_pause_reason := "GLOBAL_DRAWDOWN_KILL"
                  risk_reasons := appendIfMissing r0.risk_reasons "GLOBAL_DRAWDOWN_KILL" }
      else if drawdown_before_trade ≥ args.global_drawdown_throttle_threshold
          ∧ long_has_exposure then
        { r0 with effective_size_factor :=
                    r0.effective_size_factor * args.global_drawdown_throttle_size_factor
                  risk_reasons := appendIfMissing r0.risk_reasons "GLOBAL_DRAWDOWN_THROTTLE" }
      else r0
    let r2 : OverlayResult :=
      if drawdown_before_trade ≥ args.long_catastrophic_kill_threshold
          ∧ long_has_exposure then
        { r1 with flatten_for_risk := true
                  adaptive_pause_side := "long"
                  adaptive_pause_reason := "LONG_CATASTROPHIC_KILL"
                  risk_reasons := appendIfMissing r1.risk_reasons "LONG_CATASTROPHIC_KILL" }
      else if drawdown_before_trade ≥ args.long_pause_drawdown_threshold
          ∧ long_has_exposure then
        { r1 with adaptive_pause_side := "long"
                  adaptive_pause_reason := "LONG_PAUSE_DRAWDOWN"
                  adaptive_pause_requires_invalid := true
                  risk_reasons := appendIfMissing r1.risk_reasons "LONG_PAUSE_DRAWDOWN" }
      else r1
    if kill_action.flatten_positions ∧ long_has_exposure then
      { r2 with flatten_for_risk := true
                adaptive_pause_side := "long"
                adaptive_pause_reason :=
                  if r2.adaptive_pause_reason = "" then "GAMMA_RED_DRAWDOWN_KILL"
                  else r2.adaptive_pause_reason }
    else r2
  | Mode.adaptive =>
    let adaptive_has_exposure := opening_option_contracts ≠ 0
    let adaptive_side : String :=
      if opening_option_contracts < 0 then "short" else "long"
    let r0 : OverlayResult :=
      { risk_reasons := kill_action.reasons
        effective_size_factor := kill_action.size_factor
        flatten_for_risk := kill_action.flatten_positions
        adaptive_pause_side := "", adaptive_pause_requires_invalid := false
        adaptive_pause_reason := "" }
    let r1 : OverlayResult :=
      if drawdown_before_trade ≥ args.global_drawdown_kill_threshold
          ∧ adaptive_has_exposure then
        { r0 with flatten_for_risk := true
                  adaptive_pause_side := adaptive_side
                  adaptive_pause_reason := "GLOBAL_DRAWDOWN_KILL"
                  risk_reasons := appendIfMissing r0.risk_reasons "GLOBAL_DRAWDOWN_KILL" }
      else if drawdown_before_trade ≥ args.global_drawdown_throttle_threshold
          ∧ adaptive_has_exposure then
        { r0 with effective_size_factor :=
                    r0.effective_size_factor * args.global_drawdown_throttle_size_factor
                  risk_reasons := appendIfMissing r0.risk_reasons "GLOBAL_DRAWDOWN_THROTTLE" }
      else r0
    let r2 : OverlayResult :=
      if adaptive_side = "long"
          ∧ drawdown_before_trade ≥ args.long_catastrophic_kill_threshold
          ∧ adaptive_has_exposure then
        { r1 with flatten_for_risk := true
                  adaptive_pause_side := "long"
                  adaptive_pause_reason := "LONG_CATASTROPHIC_KILL"
                  risk_reasons := appendIfMissing r1.risk_reasons "LONG_CATASTROPHIC_KILL" }
      else if adaptive_side = "long"
          ∧ drawdown_before_trade ≥ args.long_pause_drawdown_threshold
          ∧ adaptive_has_exposure then
        { r1 with adaptive_pause_side := "long"
                  adaptive_pause_reason := "LONG_PAUSE_DRAWDOWN"
                  adaptive_pause_requires_invalid := true
                  risk_reasons := appendIfMissing r1.risk_reasons "LONG_PAUSE_DRAWDOWN" }
      else r1
    if kill_action.flatten_positions ∧ adaptive_has_exposure then
      { r2 with flatten_for_risk := true
                adaptive_pause_side :=
                  if r2.adaptive_pause_side = "" then adaptive_side
                  else r2.adaptive_pause_side
                adaptive_pause_reason :=
                  if r2.adaptive_pause_reason = "" then "GAMMA_RED_DRAWDOWN_KILL"
                  else r2.adaptive_pause_reason }
    else r2

/-- Strategy-level gating of the desired next-bar target
(`main.py` lines 1311–1389).  Returns the gated target, the gate reason, and
the updated adaptive short/long pause counters. -/
def strategyGate (args : Args) (mode : Mode) (decision : SignalDecision)
    (ov : OverlayResult) (option_contracts : Int)
    (adaptive_short_pause_remaining adaptive_long_pause_remaining : Int)
    (next_target0 : Int) : Int × String × Int × Int :=
  match mode with
  | Mode.short =>
    let gated :=
      if ¬decision.pricing_filter_passed ∨ ¬decision.path_filter_passed then
        (0, "SHORT_GATE_FORCE_FLAT")
      else (next_target0, "")
    let gated :=
      if ov.flatten_for_risk then (0, "SHORT_RISK_FLATTEN") else gated
    (gated.1, gated.2, adaptive_short_pause_remaining, adaptive_long_pause_remaining)
  | Mode.long =>
    let next_target := if next_target0 < 0 then 0 else next_target0
    let pause_applied :=
      if ov.adaptive_pause_side = "long" then
        if ov.adaptive_pause_requires_invalid then
          decision.stance ≠ Stance.LONG_VOL
        else True
      else False
    let r1 : Int × String × Int :=
      if pause_applied then
        let pause_len := max args.adaptive_pause_bars args.cooldown_bars
        (0, "ADAPTIVE_LONG_PAUSED_RISK", max adaptive_long_pause_remaining pause_len)
      else (next_target, "", adaptive_long_pause_remaining)
    let r2 : Int × String :=
      if decision.stance = Stance.PAUSED then (0, "ADAPTIVE_PAUSED")
      else if ov.flatten_for_risk then (0, "ADAPTIVE_RISK_FLATTEN")
      else (r1.1, r1.2.1)
    let r3 : Int × String :=
      if r2.1 > 0 ∧ r1.2.2 > 0 then (0, "ADAPTIVE_LONG_PAUSED") else r2
    (r3.1, r3.2, adaptive_short_pause_remaining, r1.2.2)
  | Mode.adaptive =>
    let pause_applied :=
      if ov.adaptive_pause_side ≠ "" then
        if ov.adaptive_pause_requires_invalid then
          if ov.adaptive_pause_side = "short" then
            decision.stance ≠ Stance.SHORT_VOL
          else decision.stance ≠ Stance.LONG_VOL
        else True
      else False
    let r1 : Int × String × Int × Int :=
      if pause_applied then
        let pause_len := max args.adaptive_pause_bars args.cooldown_bars
        if ov.adaptive_pause_side = "short" then
          (0, "ADAPTIVE_SHORT_PAUSED_RISK",
            max adaptive_short_pause_remaining pause_len,
            adaptive_long_pause_remaining)
        else if ov.adaptive_pause_side = "long" then
          (0, "ADAPTIVE_LONG_PAUSED_RISK", adaptive_short_pause_remaining,
            max adaptive_long_pause_remaining pause_len)
        else (0, "", adaptive_short_pause_remaining, adaptive_long_pause_remaining)
      else (next_target0, "", adaptive_short_pause_remaining,
        adaptive_long_pause_remaining)
    let short_pause := r1.2.2.1
    let long_pause := r1.2.2.2
    let r2 : Int × String :=
      if decision.stance = Stance.PAUSED then (0, "ADAPTIVE_PAUSED")
      else if ov.flatten_for_risk then (0, "ADAPTIVE_RISK_FLATTEN")
      else (r1.1, r1.2.1)
    let r3 : Int × String :=
      if r2.1 < 0 ∧ short_pause > 0 then (0, "ADAPTIVE_SHORT_PAUSED")
      else if r2.1 > 0 ∧ long_pause > 0 then (0, "ADAPTIVE_LONG_PAUSED")
      else r2
    let r4 : Int × String :=
      if (option_contracts < 0 ∧ 0 < r3.1) ∨ (option_contracts > 0 ∧ 0 > r3.1) then
        (0, "ADAPTIVE_SWITCH_THROUGH_FLAT")
      else r3
    (r4.1, r4.2, short_pause, long_pause)

/-- The mutable loop variables of `run_single_mode` threaded across bars.
(The PnL breakdown, event strings and CSV rows are bookkeeping-only and are
not carried; `first_long_trade_*` diagnostics are likewise elided.) -/
structure LoopState where
  engine : RegimeSignalEngine
  drawdown : DrawdownTracker
  cash : ℚ
  option_contracts : Int
  hedge_shares : Int
  prev_spot : Option ℚ
  prev_option_mid : Option ℚ
  prev_equity : ℚ
  prev_stance : Stance
  spot_history : List ℚ
  rv_history : List ℚ
  return_history : List ℚ
  pending_target_contracts : Int
  long_bars_in_position : Int
  adaptive_short_pause_remaining : Int
  adaptive_long_pause_remaining : Int

/-- The loop state at the top of `run_single_mode`, before the first bar. -/
def initialLoopState (cfg : SignalConfig) : LoopState :=
  { engine := { config := cfg }
    drawdown := { peak_equity := INITIAL_CAPITAL }
    cash := INITIAL_CAPITAL
    option_contracts := 0
    hedge_shares := 0
    prev_spot := none
    prev_option_mid := none
    prev_equity := INITIAL_CAPITAL
    prev_stance := Stance.FLAT
    spot_history := []
    rv_history := []
    return_history := []
    pending_target_contracts := 0
    long_bars_in_position := 0
    adaptive_short_pause_remaining := 0
    adaptive_long_pause_remaining := 0 }

/-- Per-bar outputs that the loop records (the step-row/event payloads the
claims refer to). -/
structure BarRecord where
  flatten_for_risk : Bool
  risk_reasons : List String
  effective_size_factor : ℚ
  requested_target_contracts : Int
  target_after_flatten : Int
  executed_target_contracts : Int
  risk_override : RiskOverride
  decision : SignalDecision
  strategy_gate_reason : String
  next_target_contracts : Int
  opening_option_contracts : Int
  equity_before_trade : ℚ
  equity_after_trade : ℚ

/-- One iteration of the `for idx, row in enumerate(market_data)` loop of
`run_single_mode`.  `logFn` abstracts `math.log`. -/
def barStep (args : Args) (mode : Mode) (logFn : ℚ → ℚ) (st : LoopState)
    (bar : Bar) : LoopState × BarRecord :=
  let risk_limits : RiskLimits :=
    { initial_capital := INITIAL_CAPITAL
      max_leverage := args.max_leverage
      max_abs_gamma := args.max_abs_gamma
      max_abs_vega := args.max_abs_vega }
  let kill_switch : KillSwitch :=
    { gamma_green_threshold := args.gamma_green_threshold
      gamma_red_threshold := args.gamma_red_threshold
      gamma_yellow_size_factor := args.gamma_yellow_size_factor
      gamma_red_size_factor := args.gamma_red_size_factor
      kill_drawdown_threshold := args.gamma_kill_drawdown_threshold }
  -- step 1: decrement active pause counters
  let adaptive_short_pause_remaining :=
    if st.adaptive_short_pause_remaining > 0 then
      st.adaptive_short_pause_remaining - 1
    else st.adaptive_short_pause_remaining
  let adaptive_long_pause_remaining :=
    if st.adaptive_long_pause_remaining > 0 then
      st.adaptive_long_pause_remaining - 1
    else st.adaptive_long_pause_remaining
  let spot := bar.close
  let realized_vol := bar.realized_vol
  let option_mid := bar.option_mid
  let iv := bar.iv
  let delta := bar.delta
  let gamma := bar.gamma
  let vega := bar.vega
  -- history updates
  let return_history :=
    match st.prev_spot with
    | some ps => if ps > 0 then st.return_history ++ [logFn (spot / ps)]
                 else st.return_history
    | none => st.return_history
  let spot_history := st.spot_history ++ [spot]
  let rv_history := st.rv_history ++ [realized_vol]
  let opening_option_contracts := st.option_contracts
  let opening_hedge_shares := st.hedge_shares
  -- steps 2–3: mark-to-market and "before trade" equity/drawdown
  let equity_before_trade := st.cash
    + (opening_option_contracts : ℚ) * 100 * option_mid
    + (opening_hedge_shares : ℚ) * spot
  let drawdown_before_trade := st.drawdown.peek equity_before_trade
  -- step 4: kill switch on opening exposures
  let exposures_before := compute_exposures opening_option_contracts
    opening_hedge_shares spot option_mid delta gamma vega
  let gamma_risk := gamma_risk_metric exposures_before.gamma_exposure spot
  let kill_action := kill_switch.evaluate gamma_risk drawdown_before_trade
  -- step 5: mode-specific overlays
  let ov := riskOverlays args mode kill_action drawdown_before_trade
    opening_option_contracts
  -- step 6: execute the target produced by the previous bar's signal
  let requested_target_contracts := st.pending_target_contracts
  let target_after_flatten :=
    if ov.flatten_for_risk then 0 else st.pending_target_contracts
  let forced_derisk := ov.flatten_for_risk
  -- step 7: risk-limit check
  let checked := riskCheckTarget risk_limits spot option_mid delta gamma vega
    equity_before_trade opening_option_contracts target_after_flatten
    forced_derisk
  let executed_target_contracts := checked.1
  -- step 8: option leg then hedge leg
  let option_trade := execute_option_trade opening_option_contracts
    executed_target_contracts option_mid st.cash
  let option_contracts := option_trade.new_contracts
  let cash := option_trade.cash
  let target_hedge_shares := pythonRound (-(option_contracts : ℚ) * delta * 100)
  let hedge_trade := rebalance_delta_hedge opening_hedge_shares
    target_hedge_shares spot cash
  let hedge_shares := hedge_trade.new_shares
  let cash := hedge_trade.cash
  -- step 9: equity / drawdown after trade
  let equity := cash + (option_contracts : ℚ) * 100 * option_mid
    + (hedge_shares : ℚ) * spot
  let dd := st.drawdown.update equity
  let long_bars_in_position :=
    if mode = Mode.long then
      if option_contracts > 0 then st.long_bars_in_position + 1 else 0
    else st.long_bars_in_position
  -- step 10: this bar's signal decision (affects only the next bar)
  let dec := st.engine.decide mode iv rv_history spot spot_history return_history
  let engine := dec.1
  let decision := dec.2
  -- step 11: desired next-bar target via the mode-appropriate sizer
  let next_target0 :=
    match mode with
    | Mode.short =>
      target_option_contracts decision.signal option_mid (max equity 0)
        risk_limits.max_capital_at_risk ov.effective_size_factor
    | Mode.long =>
      target_contracts_by_vega_budget decision.signal (max equity 0) vega
        args.long_vega_budget_ratio ov.effective_size_factor
    | Mode.adaptive =>
      if decision.signal < 0 then
        target_option_contracts (-1) option_mid (max equity 0)
          risk_limits.max_capital_at_risk ov.effective_size_factor
      else if decision.signal > 0 then
        target_contracts_by_vega_budget 1 (max equity 0) vega
          args.long_vega_budget_ratio ov.effective_size_factor
      else 0
  -- step 12: strategy-level gating
  let gate := strategyGate args mode decision ov option_contracts
    adaptive_short_pause_remaining adaptive_long_pause_remaining next_target0
  -- step 13: store the gated value for the next bar
  ({ engine := engine
     drawdown := dd.1
     cash := cash
     option_contracts := option_contracts
     hedge_shares := hedge_shares
     prev_spot := some spot
     prev_option_mid := some option_mid
     prev_equity := equity
     prev_stance := decision.stance
     spot_history := spot_history
     rv_history := rv_history
     return_history := return_history
     pending_target_contracts := gate.1
     long_bars_in_position := long_bars_in_position
     adaptive_short_pause_remaining := gate.2.2.1
     adaptive_long_pause_remaining := gate.2.2.2 },
   { flatten_for_risk := ov.flatten_for_risk
     risk_reasons := ov.risk_reasons
     effective_size_factor := ov.effective_size_factor
     requested_target_contracts := requested_target_contracts
     target_after_flatten := target_after_flatten
     executed_target_contracts := executed_target_contracts
     risk_override := checked.2
     decision := decision
     strategy_gate_reason := gate.2.1
     next_target_contracts := gate.1
     opening_option_contracts := opening_option_contracts
     equity_before_trade := equity_before_trade
     equity_after_trade := equity })

/-- The whole `for` loop of `run_single_mode`: the list of
(state-after, record) pairs, one per bar. -/
def runSteps (args : Args) (mode : Mode) (logFn : ℚ → ℚ) :
    LoopState → List Bar → List (LoopState × BarRecord)
  | _, [] => []
  | st, b :: rest =>
    let step := barStep args mode logFn st b
    step :: runSteps args mode logFn step.1 rest

/-! ## Concrete instances used as evaluation inputs -/

/-- A minimal-window `SignalConfig` (all rolling windows 1) used for concrete
evaluations of the signal engine. -/
def smallConfig : SignalConfig :=
  { rv_short_window := 1, rv_medium_window := 1, trend_window := 1 }

/-- An engine whose previous stance was SHORT_VOL, about to re-arm the
cooldown on a FLAT decision. -/
def cooldownEngineA : RegimeSignalEngine :=
  { config := smallConfig, prev_stance := Stance.SHORT_VOL }

/-- An engine inside an active cooldown (5 bars remaining, previous stance
FLAT). -/
def cooldownEngineB : RegimeSignalEngine :=
  { config := smallConfig, cooldown_remaining := 5 }

/-- An adaptive config whose short/long strength gap at the metrics `m4`
lands exactly on `adaptive_confidence_buffer` while both enter predicates
hold. -/
def cfg4 : SignalConfig :=
  { adaptive_enter_persist_bars := 1, adaptive_short_edge_enter := -1,
    adaptive_short_trend_enter := 1, adaptive_vov_low := 1 + 1/1000,
    adaptive_long_cheapness_enter := -1, adaptive_vov_high := -1,
    adaptive_long_trend_max := 1 }

/-- An all-zero metrics bundle. -/
def m4 : Metrics :=
  { rv_short := 0, rv_medium := 0, edge := 0, edge_velocity := 0,
    trend_strength := 0, jump_abs_return := 0, rv_change := 0, choppiness := 0,
    chop_score := none }

/-- A fresh adaptive engine with config `cfg4`. -/
def engine4 : RegimeSignalEngine := { config := cfg4 }

/-! ## Theorems -/

/-- C2: `KillSwitch.evaluate` is a pure function whose zone depends on
`gamma_risk` alone, with inclusive lower boundaries; `flatten_positions` holds
iff the zone is red and the drawdown exceeds the kill threshold, and the
reason lists are exactly as specified in each zone. -/
theorem kill_switch_zone_policy (ks : KillSwitch) (g d : ℚ)
    (hg : 0 ≤ g) (hd : 0 ≤ d)
    (hks : ks.gamma_green_threshold ≤ ks.gamma_red_threshold) :
    (∀ d', (ks.evaluate g d').zone = (ks.evaluate g d).zone)
    ∧ (g ≤ ks.gamma_green_threshold →
        ks.evaluate g d = { zone := Zone.green, size_factor := 1, flatten_positions := false, reasons := [] })
    ∧ (ks.gamma_green_threshold < g → g ≤ ks.gamma_red_threshold →
        ks.evaluate g d = { zone := Zone.yellow, size_factor := ks.gamma_yellow_size_factor, flatten_positions := false, reasons := ["GAMMA_YELLOW_THROTTLE"] })
    ∧ (ks.gamma_red_threshold < g →
        (ks.evaluate g d).zone = Zone.red
        ∧ (ks.evaluate g d).size_factor = ks.gamma_red_size_factor
        ∧ (ks.evaluate g d).reasons.head? = some "GAMMA_RED_THROTTLE")
    ∧ ((ks.evaluate g d).flatten_positions = true ↔
        ((ks.evaluate g d).zone = Zone.red ∧ d > ks.kill_drawdown_threshold))
    ∧ (ks.gamma_red_threshold < g → d > ks.kill_drawdown_threshold →
        (ks.evaluate g d).reasons = ["GAMMA_RED_THROTTLE", "GAMMA_RED_DRAWDOWN_KILL"])
    ∧ (ks.gamma_red_threshold < g → d ≤ ks.kill_drawdown_threshold →
        (ks.evaluate g d).reasons = ["GAMMA_RED_THROTTLE"]) := by
  refine ⟨?_, ?_, ?_, ?_, ?_, ?_, ?_⟩
  · intro d'
    simp only [KillSwitch.evaluate]
    split_ifs <;> rfl
  · intro h
    simp [KillSwitch.evaluate, h]
  · intro h1 h2
    simp only [KillSwitch.evaluate]
    rw [if_neg (by linarith), if_pos h2]
  · intro h
    simp only [KillSwitch.evaluate]
    rw [if_neg (by linarith), if_neg (by linarith)]
    split_ifs <;> exact ⟨rfl, rfl, rfl⟩
  · simp only [KillSwitch.evaluate]
    split_ifs with h1 h2 h3 <;> simp_all <;> linarith
  · intro h1 h2
    simp only [KillSwitch.evaluate]
    rw [if_neg (by linarith), if_neg (by linarith), if_pos h2]
  · intro h1 h2
    simp only [KillSwitch.evaluate]
    rw [if_neg (by linarith), if_neg (by linarith), if_neg (by linarith)]

/-- Witness for C2 at the spec's own scenario: gamma_risk=12, G1=5, G2=10,
drawdown=0.15 > D1=0.12. -/
theorem kill_switch_zone_policy_witness :
    (({} : KillSwitch).evaluate 12 (15/100)).reasons =
      ["GAMMA_RED_THROTTLE", "GAMMA_RED_DRAWDOWN_KILL"] :=
  (kill_switch_zone_policy {} 12 (15/100) (by norm_num) (by norm_num)
    (by norm_num)).2.2.2.2.2.1 (by norm_num) (by norm_num)

/-- C6: `trade_allowed` evaluates its five checks in short-circuit order and
returns the first failing reason; in particular non-positive projected equity
always blocks with "Equity exhausted". -/
theorem trade_allowed_short_circuit (rl : RiskLimits) (c : Int)
    (price notional gabs vabs equity : ℚ) :
    (equity ≤ 0 →
      rl.trade_allowed c price notional gabs vabs equity =
        (false, "Equity exhausted"))
    ∧ (0 < equity →
        |(c : ℚ) * price * CONTRACT_MULTIPLIER| / equity > rl.max_capital_at_risk →
        rl.trade_allowed c price notional gabs vabs equity =
          (false, "Blocked: capital-at-risk limit breached"))
    ∧ (0 < equity →
        |(c : ℚ) * price * CONTRACT_MULTIPLIER| / equity ≤ rl.max_capital_at_risk →
        notional / equity > rl.max_leverage →
        rl.trade_allowed c price notional gabs vabs equity =
          (false, "Blocked: leverage limit breached"))
    ∧ (0 < equity →
        |(c : ℚ) * price * CONTRACT_MULTIPLIER| / equity ≤ rl.max_capital_at_risk →
        notional / equity ≤ rl.max_leverage →
        gabs > rl.max_abs_gamma →
        rl.trade_allowed c price notional gabs vabs equity =
          (false, "Blocked: gamma limit breached"))
    ∧ (0 < equity →
        |(c : ℚ) * price * CONTRACT_MULTIPLIER| / equity ≤ rl.max_capital_at_risk →
        notional / equity ≤ rl.max_leverage →
        gabs ≤ rl.max_abs_gamma →
        vabs > rl.max_abs_vega →
        rl.trade_allowed c price notional gabs vabs equity =
          (false, "Blocked: vega limit breached"))
    ∧ (0 < equity →
        |(c : ℚ) * price * CONTRACT_MULTIPLIER| / equity ≤ rl.max_capital_at_risk →
        notional / equity ≤ rl.max_leverage →
        gabs ≤ rl.max_abs_gamma →
        vabs ≤ rl.max_abs_vega →
        rl.trade_allowed c price notional gabs vabs equity = (true, "")) := by
  refine ⟨?_, ?_, ?_, ?_, ?_, ?_⟩ <;>
    · intros
      simp only [RiskLimits.trade_allowed]
      split_ifs <;> first | rfl | linarith

/-- Witness for C6: equity exhausted blocks deterministically. -/
theorem trade_allowed_short_circuit_witness :
    ({ initial_capital := 10000 } : RiskLimits).trade_allowed 5 2 1000 0 0 (-5) =
      (false, "Equity exhausted") :=
  (trade_allowed_short_circuit { initial_capital := 10000 } 5 2 1000 0 0 (-5)).1
    (by norm_num)

/-- C10: the execution layer is unconditional — both legs set the new position
to the requested target and adjust cash by the signed notional minus fees and
slippage; nothing checks that cash stays nonnegative, so cash can be driven
below any bound, and no trade is rejected or partially filled. -/
theorem execution_layer_unconditional :
    (∀ (cur tgt : Int) (price cash : ℚ),
      (execute_option_trade cur tgt price cash).new_contracts = tgt
      ∧ (execute_option_trade cur tgt price cash).cash =
          cash - ((tgt - cur : Int) : ℚ) * price * CONTRACT_MULTIPLIER
            - (execute_option_trade cur tgt price cash).fees
            - (execute_option_trade cur tgt price cash).slippage)
    ∧ (∀ (cur tgt : Int) (spot cash : ℚ),
      (rebalance_delta_hedge cur tgt spot cash).new_shares = tgt
      ∧ (rebalance_delta_hedge cur tgt spot cash).cash =
          cash - ((tgt - cur : Int) : ℚ) * spot
            - (rebalance_delta_hedge cur tgt spot cash).fees
            - (rebalance_delta_hedge cur tgt spot cash).slippage)
    ∧ (∀ B : ℚ, ∃ tgt : Int, (execute_option_trade 0 tgt 1 0).cash < B) := by
  refine ⟨?_, ?_, ?_⟩
  · intro cur tgt price cash
    constructor
    · rfl
    · simp only [execute_option_trade]
      ring
  · intro cur tgt spot cash
    constructor
    · rfl
    · simp only [rebalance_delta_hedge]
      ring
  · intro B
    refine ⟨⌈|B|⌉ + 1, ?_⟩
    have h1 : (0 : ℤ) ≤ ⌈|B|⌉ + 1 := by positivity
    have h2 : (B : ℚ) ≤ |B| := le_abs_self B
    have h3 : (|B| : ℚ) ≤ (⌈|B|⌉ : ℚ) := Int.le_ceil _
    have hn : (((⌈|B|⌉ + 1 : Int).natAbs : ℤ)) = ⌈|B|⌉ + 1 :=
      Int.natAbs_of_nonneg h1
    have habs : (((⌈|B|⌉ + 1 : Int).natAbs : ℚ)) = (⌈|B|⌉ : ℚ) + 1 := by
      rw [Int.cast_natAbs]
      exact_mod_cast abs_of_nonneg h1
    have h4 : (0 : ℚ) ≤ |B| := abs_nonneg B
    have h5 : -|B| ≤ B := neg_abs_le B
    simp only [execute_option_trade, sub_zero, Int.sub_zero, CONTRACT_MULTIPLIER]
    rw [habs]
    push_cast
    linarith

/-- C5 (amended): the chop score is the rolling mean of absolute returns over
the chop window divided by the absolute rolling mean of signed returns, and it
is `+∞` (modelled `none`) exactly when that denominator is ≤ 1e-12; the
quotient is returned only for a denominator strictly above 1e-12, so the
division is always by a strictly positive quantity. -/
theorem chop_score_spec (cfg : SignalConfig) (prev_edge : Option ℚ)
    (iv spot : ℚ) (rvs prices rets : List ℚ) :
    ((1/10^12 : ℚ) < |rollingMean rets cfg.long_chop_window| →
      (baseMetrics cfg prev_edge iv rvs spot prices rets).chop_score =
        some (rollingMean (rets.map (fun r => |r|)) cfg.long_chop_window /
          |rollingMean rets cfg.long_chop_window|))
    ∧ (|rollingMean rets cfg.long_chop_window| ≤ (1/10^12 : ℚ) →
      (baseMetrics cfg prev_edge iv rvs spot prices rets).chop_score = none) := by
  constructor <;>
    · intro h
      simp only [baseMetrics]
      split_ifs with hc <;> first | rfl | linarith

/-- Witness for C5: a strongly drifting two-return series gets a finite chop
score, a drift-free one gets `+∞`. -/
theorem chop_score_spec_witness :
    (baseMetrics {} none 0 [] 0 [] [1, 1]).chop_score = some 1
    ∧ (baseMetrics {} none 0 [] 0 [] [1, -1]).chop_score = none := by
  have e1 : rollingMean [(1 : ℚ), 1] ({} : SignalConfig).long_chop_window = 1 := by
    norm_num [rollingMean, List.cons_ne_nil]
  have e2 : rollingMean (List.map (fun r => |r|) [(1 : ℚ), 1])
      ({} : SignalConfig).long_chop_window = 1 := by
    norm_num [rollingMean, List.cons_ne_nil]
  have e3 : rollingMean [(1 : ℚ), -1] ({} : SignalConfig).long_chop_window = 0 := by
    norm_num [rollingMean, List.cons_ne_nil]
  constructor
  · have h := (chop_score_spec {} none 0 0 [] [] [1, 1]).1 (by rw [e1]; norm_num)
    rw [h, e1, e2]
    norm_num
  · exact (chop_score_spec {} none 0 0 [] [] [1, -1]).2 (by rw [e3]; norm_num)

/-- C5 counterexample to the claim as stated: with the single return 1e-12 the
denominator equals exactly 1e-12 (so it is "≥ 1e-12" and not "below 1e-12"),
yet the code returns `+∞` rather than the quotient, because its guard is the
strict `denom > 1e-12`. -/
theorem chop_score_boundary_cex :
    |rollingMean [(1/10^12 : ℚ)] ({} : SignalConfig).long_chop_window| ≥ 1/10^12
    ∧ (baseMetrics {} none 0 [] 0 [] [(1/10^12 : ℚ)]).chop_score = none := by
  have e1 : rollingMean [(1/10^12 : ℚ)] ({} : SignalConfig).long_chop_window
      = 1/10^12 := by
    norm_num [rollingMean, List.cons_ne_nil]
  have e2 : |(1/10^12 : ℚ)| = 1/10^12 := abs_of_nonneg (by norm_num)
  constructor
  · rw [e1, e2]
  · refine (chop_score_spec {} none 0 0 [] [] [(1/10^12 : ℚ)]).2 ?_
    rw [e1, e2]

/-! ### Binary-search clamp: supporting lemmas -/

theorem clampLoop_mid_lt (low high1 : Nat) (h : low < high1) :
    low ≤ (low + high1 - 1) / 2 ∧ (low + high1 - 1) / 2 < high1 := by
  constructor
  · have h2 : low + low ≤ low + high1 - 1 := by omega
    calc low = (low + low) / 2 := by omega
      _ ≤ (low + high1 - 1) / 2 := Nat.div_le_div_right h2
  · exact Nat.div_lt_of_lt_mul (by omega)

/-- The loop result never exceeds a bound dominating `best` and `high`. -/
theorem clampLoop_le (P : Int → Bool) (sg : Int) (B : Nat) :
    ∀ low high1 best, best ≤ B → high1 ≤ B + 1 →
      clampLoop P sg low high1 best ≤ B := by
  intro low high1 best
  induction low, high1, best using clampLoop.induct P sg with
  | case1 low high1 best h mid hall ih =>
    intro hb hh
    rw [clampLoop]
    simp only [dif_pos h, if_pos hall]
    have hm := clampLoop_mid_lt low high1 h
    exact ih (by omega) hh
  | case2 low high1 best h mid hall ih =>
    intro hb hh
    rw [clampLoop]
    simp only [dif_pos h, if_neg hall]
    have hm := clampLoop_mid_lt low high1 h
    exact ih hb (by omega)
  | case3 low high1 best h =>
    intro hb hh
    rw [clampLoop]
    simp only [dif_neg h]
    exact hb

/-- The loop result passes the predicate whenever the incoming `best` does
(or it is 0). -/
theorem clampLoop_passes (P : Int → Bool) (sg : Int) :
    ∀ low high1 best : Nat, (P (sg * (best : Int)) = true ∨ best = 0) →
      (P (sg * (clampLoop P sg low high1 best : Int)) = true
        ∨ clampLoop P sg low high1 best = 0) := by
  intro low high1 best
  induction low, high1, best using clampLoop.induct P sg with
  | case1 low high1 best h mid hall ih =>
    intro _
    rw [clampLoop]
    simp only [dif_pos h, if_pos hall]
    exact ih (Or.inl hall)
  | case2 low high1 best h mid hall ih =>
    intro hb
    rw [clampLoop]
    simp only [dif_pos h, if_neg hall]
    exact ih hb
  | case3 low high1 best h =>
    intro hb
    rw [clampLoop]
    simp only [dif_neg h]
    exact hb

/-- If every candidate fails, the loop returns the incoming `best`. -/
theorem clampLoop_const_false (P : Int → Bool) (sg : Int)
    (hall : ∀ c, P c = false) :
    ∀ low high1 best : Nat, clampLoop P sg low high1 best = best := by
  intro low high1 best
  induction low, high1, best using clampLoop.induct P sg with
  | case1 low high1 best h mid hmid ih =>
    rw [hall] at hmid
    exact absurd hmid (by simp)
  | case2 low high1 best h mid hmid ih =>
    rw [clampLoop]
    simp only [dif_pos h, if_neg hmid]
    exact ih
  | case3 low high1 best h =>
    rw [clampLoop]
    simp only [dif_neg h]

/-- Under a monotone (antitone-in-magnitude) predicate, the loop result
dominates every passing magnitude in range. -/
theorem clampLoop_max (P : Int → Bool) (sg : Int) (N : Nat)
    (anti : ∀ m n : Nat, m ≤ n → n ≤ N → P (sg * (n : Int)) = true →
      P (sg * (m : Int)) = true) :
    ∀ low high1 best : Nat, high1 ≤ N + 1 →
      (∀ k, high1 ≤ k → k ≤ N → P (sg * (k : Int)) = false) →
      low ≤ best + 1 →
      ∀ m, m ≤ N → P (sg * (m : Int)) = true →
        m ≤ clampLoop P sg low high1 best := by
  intro low high1 best
  induction low, high1, best using clampLoop.induct P sg with
  | case1 low high1 best h mid hall ih =>
    intro hh hfail hlb m hm hPm
    rw [clampLoop]
    simp only [dif_pos h, if_pos hall]
    exact ih hh hfail (by omega) m hm hPm
  | case2 low high1 best h mid hall ih =>
    intro hh hfail hlb m hm hPm
    rw [clampLoop]
    simp only [dif_pos h, if_neg hall]
    have hm2 := clampLoop_mid_lt low high1 h
    refine ih (by omega) ?_ hlb m hm hPm
    intro k hk1 hk2
    by_cases hkh : high1 ≤ k
    · exact hfail k hkh hk2
    · by_contra hPk
      have hPk' : P (sg * (k : Int)) = true := by
        cases hPkv : P (sg * (k : Int)) with
        | true => rfl
        | false => exact absurd hPkv hPk
      have : P (sg * ((low + high1 - 1) / 2 : Nat) : _) = true :=
        anti ((low + high1 - 1) / 2) k hk1 hk2 hPk'
      rw [this] at hall
      exact absurd rfl hall
  | case3 low high1 best h =>
    intro hh hfail hlb m hm hPm
    rw [clampLoop]
    simp only [dif_neg h]
    by_cases hmh : high1 ≤ m
    · rw [hfail m hmh hm] at hPm
      exact absurd hPm (by simp)
    · omega

/-- `pythonRound 0 = 0`. -/
theorem pythonRound_zero : pythonRound 0 = 0 := by
  norm_num [pythonRound]

/-- If projected equity is exhausted or some limit is negative, every trade is
blocked (the arguments fed by `evaluate_projected_trade` are nonnegative). -/
theorem trade_allowed_false_of_degenerate (rl : RiskLimits) (c : Int)
    (price notional gabs vabs equity : ℚ)
    (hn : 0 ≤ notional) (hg : 0 ≤ gabs) (hv : 0 ≤ vabs)
    (h : equity ≤ 0 ∨ rl.max_capital_at_risk < 0 ∨ rl.max_leverage < 0 ∨
      rl.max_abs_gamma < 0 ∨ rl.max_abs_vega < 0) :
    (rl.trade_allowed c price notional gabs vabs equity).1 = false := by
  simp only [RiskLimits.trade_allowed]
  split_ifs with g1 g2 g3 g4 g5
  · rfl
  · rfl
  · rfl
  · rfl
  · rfl
  · exfalso
    have hpos : 0 < equity := lt_of_not_le g1
    have hr : 0 ≤ |(c : ℚ) * price * CONTRACT_MULTIPLIER| / equity :=
      div_nonneg (abs_nonneg _) (le_of_lt hpos)
    have hl : 0 ≤ notional / equity := div_nonneg hn (le_of_lt hpos)
    rcases h with h | h | h | h | h
    · exact g1 h
    · linarith [not_lt.mp g2, hr]
    · linarith [not_lt.mp g3, hl]
    · linarith [not_lt.mp g4, hg]
    · linarith [not_lt.mp g5, hv]

/-- If even the zero position is blocked, the equity is exhausted or some
limit is negative. -/
theorem trade_allowed_zero_false (rl : RiskLimits) (price equity : ℚ)
    (h : (rl.trade_allowed 0 price 0 0 0 equity).1 = false) :
    equity ≤ 0 ∨ rl.max_capital_at_risk < 0 ∨ rl.max_leverage < 0 ∨
      rl.max_abs_gamma < 0 ∨ rl.max_abs_vega < 0 := by
  by_contra hc
  push_neg at hc
  obtain ⟨h1, h2, h3, h4, h5⟩ := hc
  simp only [RiskLimits.trade_allowed, Int.cast_zero, zero_mul, abs_zero,
    zero_div] at h
  split_ifs at h with g1 g2 g3 g4 g5
  · exact absurd g1 (not_le.mpr h1)
  · exact absurd g2 (not_lt.mpr h2)
  · exact absurd g3 (not_lt.mpr h3)
  · exact absurd g4 (not_lt.mpr h4)
  · exact absurd g5 (not_lt.mpr h5)

/-- The zero-position projected-trade check reduces to `trade_allowed` on all
zero exposures. -/
theorem evaluate_projected_trade_zero (rl : RiskLimits)
    (spot mid delta gamma vega equity : ℚ) :
    (evaluate_projected_trade rl 0 spot mid delta gamma vega equity).1 =
      (rl.trade_allowed 0 mid 0 0 0 equity).1 := by
  simp only [evaluate_projected_trade, compute_exposures]
  norm_num [pythonRound]

/-- If the zero position is blocked, every candidate is blocked. -/
theorem evaluate_projected_trade_false_all (rl : RiskLimits)
    (spot mid delta gamma vega equity : ℚ)
    (h0 : (evaluate_projected_trade rl 0 spot mid delta gamma vega equity).1 = false) :
    ∀ c, (evaluate_projected_trade rl c spot mid delta gamma vega equity).1 = false := by
  intro c
  rw [evaluate_projected_trade_zero] at h0
  have hcase := trade_allowed_zero_false rl mid equity h0
  simp only [evaluate_projected_trade, compute_exposures]
  exact trade_allowed_false_of_degenerate rl c mid _ _ _ equity
    (add_nonneg (abs_nonneg _) (abs_nonneg _)) (abs_nonneg _) (abs_nonneg _)
    hcase

/-- Magnitude of a `±1`-signed cast magnitude. -/
theorem sign_mul_natAbs (sg : Int) (L : Nat) (h : sg = 1 ∨ sg = -1) :
    (sg * (L : Int)).natAbs = L := by
  rcases h with rfl | rfl <;> simp

/-- The sign used by `clamp_target_to_risk_limits` is `±1`. -/
theorem clamp_sign_pm (desired : Int) :
    (if desired > 0 then (1 : Int) else -1) = 1
      ∨ (if desired > 0 then (1 : Int) else -1) = -1 := by
  split_ifs <;> simp

/-- C7: `clamp_target_to_risk_limits` preserves the sign of `desired`, never
exceeds its magnitude, passes `trade_allowed` whenever magnitude 0 passes,
returns 0 when magnitude 0 itself fails, and—assuming the projected-trade
predicate is monotonically non-increasing in magnitude—returns the largest
passing magnitude in `[0, |desired|]`. -/
theorem clamp_target_to_risk_limits_spec (rl : RiskLimits) (desired : Int)
    (spot mid delta gamma vega equity : ℚ) :
    (0 < desired →
      0 ≤ clamp_target_to_risk_limits rl desired spot mid delta gamma vega equity)
    ∧ (desired < 0 →
      clamp_target_to_risk_limits rl desired spot mid delta gamma vega equity ≤ 0)
    ∧ (clamp_target_to_risk_limits rl desired spot mid delta gamma vega equity).natAbs
        ≤ desired.natAbs
    ∧ ((evaluate_projected_trade rl 0 spot mid delta gamma vega equity).1 = true →
        (evaluate_projected_trade rl
          (clamp_target_to_risk_limits rl desired spot mid delta gamma vega equity)
          spot mid delta gamma vega equity).1 = true)
    ∧ ((evaluate_projected_trade rl 0 spot mid delta gamma vega equity).1 = false →
        clamp_target_to_risk_limits rl desired spot mid delta gamma vega equity = 0)
    ∧ ((∀ m n : Nat, m ≤ n → n ≤ desired.natAbs →
          (evaluate_projected_trade rl ((if desired > 0 then (1 : Int) else -1) * (n : Int))
            spot mid delta gamma vega equity).1 = true →
          (evaluate_projected_trade rl ((if desired > 0 then (1 : Int) else -1) * (m : Int))
            spot mid delta gamma vega equity).1 = true) →
        (evaluate_projected_trade rl 0 spot mid delta gamma vega equity).1 = true →
        ∀ m : Nat, m ≤ desired.natAbs →
          (evaluate_projected_trade rl ((if desired > 0 then (1 : Int) else -1) * (m : Int))
            spot mid delta gamma vega equity).1 = true →
          m ≤ (clamp_target_to_risk_limits rl desired spot mid delta gamma vega
            equity).natAbs) := by
  by_cases hdz : desired = 0
  · subst hdz
    simp only [clamp_target_to_risk_limits, if_pos rfl]
    refine ⟨fun _ => le_refl 0, fun _ => le_refl 0, by simp, fun h => h,
      fun _ => rfl, fun _ _ m hm _ => ?_⟩
    simpa using hm
  · have key : clamp_target_to_risk_limits rl desired spot mid delta gamma vega equity
        = (if desired > 0 then (1 : Int) else -1) *
          ((clampLoop
            (fun candidate =>
              (evaluate_projected_trade rl candidate spot mid delta gamma vega equity).1)
            (if desired > 0 then (1 : Int) else -1) 0 (desired.natAbs + 1) 0 : Nat) : Int) := by
      simp only [clamp_target_to_risk_limits, if_neg hdz]
    have hLle : clampLoop
        (fun candidate =>
          (evaluate_projected_trade rl candidate spot mid delta gamma vega equity).1)
        (if desired > 0 then (1 : Int) else -1) 0 (desired.natAbs + 1) 0
          ≤ desired.natAbs :=
      clampLoop_le _ _ desired.natAbs 0 (desired.natAbs + 1) 0 (Nat.zero_le _)
        (le_refl _)
    have habs := sign_mul_natAbs (if desired > 0 then (1 : Int) else -1)
      (clampLoop
        (fun candidate =>
          (evaluate_projected_trade rl candidate spot mid delta gamma vega equity).1)
        (if desired > 0 then (1 : Int) else -1) 0 (desired.natAbs + 1) 0)
      (clamp_sign_pm desired)
    refine ⟨?_, ?_, ?_, ?_, ?_, ?_⟩
    · intro hd
      rw [key, if_pos hd, one_mul]
      exact Int.natCast_nonneg _
    · intro hd
      have hnp : ¬ desired > 0 := by omega
      rw [key, if_neg hnp, neg_one_mul]
      exact neg_nonpos.mpr (Int.natCast_nonneg _)
    · rw [key, habs]
      exact hLle
    · intro h0
      rcases clampLoop_passes
          (fun candidate =>
            (evaluate_projected_trade rl candidate spot mid delta gamma vega equity).1)
          (if desired > 0 then (1 : Int) else -1) 0 (desired.natAbs + 1) 0
          (Or.inr rfl) with hp | hz
      · rw [key]
        exact hp
      · rw [key, hz]
        simpa using h0
    · intro h0
      have hall := evaluate_projected_trade_false_all rl spot mid delta gamma vega
        equity h0
      rw [key, clampLoop_const_false _ _ (fun c => hall c) 0 (desired.natAbs + 1) 0]
      simp
    · intro anti h0 m hm hPm
      rw [key, habs]
      refine clampLoop_max
        (fun candidate =>
          (evaluate_projected_trade rl candidate spot mid delta gamma vega equity).1)
        (if desired > 0 then (1 : Int) else -1) desired.natAbs anti
        0 (desired.natAbs + 1) 0 (le_refl _) ?_ (by omega) m hm hPm
      intro k hk1 hk2
      exact absurd hk1 (by omega)

/-- Witness for C7: with exhausted equity the zero magnitude itself fails and
the clamp collapses to 0. -/
theorem clamp_target_to_risk_limits_spec_witness :
    clamp_target_to_risk_limits { initial_capital := 10000 } 15 100 2 0 0 0 (-1) = 0 :=
  (clamp_target_to_risk_limits_spec { initial_capital := 10000 } 15 100 2 0 0 0
    (-1)).2.2.2.2.1 (by
      rw [evaluate_projected_trade_zero]
      simp only [RiskLimits.trade_allowed]
      rw [if_pos (by norm_num)])

/-- C3 counterexample to the claim as stated: with exhausted equity, an
opening position of 1 and a blocked target of −1 (equal magnitude), the code
does not take the "allow de-risk" path — magnitude equality falls into the
clamp/block path, the executed target becomes the opening position 1 and a
RISK_BLOCK is logged, not RISK_ALLOW_DERISK with target −1. -/
theorem risk_check_le_boundary_cex :
    ((-1 : Int).natAbs ≤ (1 : Int).natAbs)
    ∧ (evaluate_projected_trade { initial_capital := 10000 } (-1) 100 2 0 0 0
        (-100)).1 = false
    ∧ riskCheckTarget { initial_capital := 10000 } 100 2 0 0 0 (-100) 1 (-1) false
        = (1, RiskOverride.blockEvent) := by
  have hm1 : (evaluate_projected_trade { initial_capital := 10000 } (-1) 100 2 0 0 0
      (-100)).1 = false := by
    simp only [evaluate_projected_trade, RiskLimits.trade_allowed]
    rw [if_pos (by norm_num)]
  refine ⟨by decide, hm1, ?_⟩
  have h0 : (evaluate_projected_trade { initial_capital := 10000 } 0 100 2 0 0 0
      (-100)).1 = false := by
    rw [evaluate_projected_trade_zero]
    simp only [RiskLimits.trade_allowed]
    rw [if_pos (by norm_num)]
  have hall := evaluate_projected_trade_false_all { initial_capital := 10000 }
    100 2 0 0 0 (-100) h0
  have hclamp : clamp_target_to_risk_limits { initial_capital := 10000 } (-1)
      100 2 0 0 0 (-100) = 0 := by
    simp only [clamp_target_to_risk_limits, if_neg (by decide : ¬((-1 : Int) = 0))]
    rw [clampLoop_const_false _ _ (fun c => hall c)]
    simp
  simp only [riskCheckTarget, hm1, hclamp]
  norm_num

/-- C3 (amended): forced flattens bypass the limiter; otherwise, for a target
that fails `trade_allowed`, a target of magnitude *strictly below* the opening
magnitude is allowed through with a RISK_ALLOW_DERISK override, while a target
of magnitude ≥ the opening magnitude is clamped — the clamp is adopted (with a
RISK_CLAMP event) only when strictly larger in magnitude than the opening
position, and otherwise the executed target is the opening position with a
RISK_BLOCK event. -/
theorem risk_check_target_spec (rl : RiskLimits)
    (spot mid delta gamma vega equity : ℚ) (opening target : Int)
    (hb : (evaluate_projected_trade rl target spot mid delta gamma vega
      equity).1 = false) :
    (target.natAbs < opening.natAbs →
      riskCheckTarget rl spot mid delta gamma vega equity opening target false
        = (target, RiskOverride.allowDerisk))
    ∧ (opening.natAbs ≤ target.natAbs →
        (opening.natAbs <
            (clamp_target_to_risk_limits rl target spot mid delta gamma vega
              equity).natAbs →
          riskCheckTarget rl spot mid delta gamma vega equity opening target false
            = (clamp_target_to_risk_limits rl target spot mid delta gamma vega
                equity, RiskOverride.clampEvent))
        ∧ ((clamp_target_to_risk_limits rl target spot mid delta gamma vega
              equity).natAbs ≤ opening.natAbs →
          riskCheckTarget rl spot mid delta gamma vega equity opening target false
            = (opening, RiskOverride.blockEvent)))
    ∧ (∀ tgt : Int,
        riskCheckTarget rl spot mid delta gamma vega equity opening tgt true
          = (tgt, RiskOverride.noOverride)) := by
  refine ⟨?_, fun hge => ⟨?_, ?_⟩, fun tgt => rfl⟩
  · intro hlt
    simp only [riskCheckTarget, hb]
    rw [if_neg (by simp), if_neg (by simp), if_pos hlt]
  · intro hcl
    simp only [riskCheckTarget, hb]
    rw [if_neg (by simp), if_neg (by simp), if_neg (not_lt.mpr hge),
      if_pos hcl]
  · intro hcl
    simp only [riskCheckTarget, hb]
    rw [if_neg (by simp), if_neg (by simp), if_neg (not_lt.mpr hge),
      if_neg (not_lt.mpr hcl)]

/-- Witness for C3's amended theorem: a strictly risk-reducing blocked target
is allowed through unchanged. -/
theorem risk_check_target_spec_witness :
    riskCheckTarget { initial_capital := 10000 } 100 2 0 0 0 (-100) 2 (-1) false
      = (-1, RiskOverride.allowDerisk) :=
  (risk_check_target_spec { initial_capital := 10000 } 100 2 0 0 0 (-100) 2 (-1)
    (by
      simp only [evaluate_projected_trade, RiskLimits.trade_allowed]
      rw [if_pos (by norm_num)])).1 (by decide)


/-- A zero target on a zero opening position always executes as 0, whatever
the risk check decides. -/
theorem riskCheckTarget_zero (rl : RiskLimits)
    (spot mid delta gamma vega equity : ℚ) (forced : Bool) :
    (riskCheckTarget rl spot mid delta gamma vega equity 0 0 forced).1 = 0 := by
  cases forced with
  | true => rfl
  | false =>
    by_cases h : (evaluate_projected_trade rl 0 spot mid delta gamma vega equity).1 = true
    · simp only [riskCheckTarget]
      rw [if_neg (by simp), if_pos h]
    · have hf : (evaluate_projected_trade rl 0 spot mid delta gamma vega equity).1
          = false := by
        cases hv : (evaluate_projected_trade rl 0 spot mid delta gamma vega equity).1 with
        | true => exact absurd hv h
        | false => rfl
      have hc : clamp_target_to_risk_limits rl 0 spot mid delta gamma vega equity
          = 0 := by
        simp [clamp_target_to_risk_limits]
      simp only [riskCheckTarget, hf]
      rw [if_neg (by simp), if_neg (by simp), if_neg (by simp), hc,
        if_neg (by simp)]

set_option maxHeartbeats 4000000 in
/-- The pre-risk-check execution target of a bar is the previous bar's stored
pending target, overridden to 0 exactly when a flatten condition fired. -/
theorem barStep_target_after_flatten (args : Args) (mode : Mode)
    (logFn : ℚ → ℚ) (st : LoopState) (b : Bar) :
    (barStep args mode logFn st b).2.target_after_flatten =
      if (barStep args mode logFn st b).2.flatten_for_risk = true then 0
      else st.pending_target_contracts := rfl

set_option maxHeartbeats 4000000 in
/-- The executed target of a bar is exactly the risk-checked flatten-gated
pending target, computed from the pre-decision state. -/
theorem barStep_executed_eq (args : Args) (mode : Mode) (logFn : ℚ → ℚ)
    (st : LoopState) (b : Bar) :
    (barStep args mode logFn st b).2.executed_target_contracts =
      (riskCheckTarget
        { initial_capital := INITIAL_CAPITAL, max_leverage := args.max_leverage,
          max_abs_gamma := args.max_abs_gamma, max_abs_vega := args.max_abs_vega }
        b.close b.option_mid b.delta b.gamma b.vega
        (st.cash + (st.option_contracts : ℚ) * 100 * b.option_mid
          + (st.hedge_shares : ℚ) * b.close)
        st.option_contracts
        (if (barStep args mode logFn st b).2.flatten_for_risk = true then 0
         else st.pending_target_contracts)
        ((barStep args mode logFn st b).2.flatten_for_risk)).1 := rfl

/-- From the fresh loop state the first bar always executes a zero target. -/
theorem barStep_first_executed (args : Args) (mode : Mode) (logFn : ℚ → ℚ)
    (cfg : SignalConfig) (b : Bar) :
    (barStep args mode logFn (initialLoopState cfg) b).2.executed_target_contracts
      = 0 := by
  rw [barStep_executed_eq]
  simp only [initialLoopState]
  rw [ite_self]
  exact riskCheckTarget_zero _ _ _ _ _ _ _ _

set_option maxHeartbeats 4000000 in
/-- The bar's executed trade is computed before the bar's signal decision:
changing only the implied vol (which feeds the decision alone) cannot change
the executed target. -/
theorem barStep_iv_noninterference (args : Args) (mode : Mode)
    (logFn : ℚ → ℚ) (st : LoopState) (b : Bar) (x : ℚ) :
    (barStep args mode logFn st b).2.executed_target_contracts =
      (barStep args mode logFn st
        { b with iv := x }).2.executed_target_contracts := rfl

/-- C1: one-bar execution delay.  (i) From the initial loop state the first
bar's executed target is 0; (ii) at every bar the target adopted before the
risk-limit check equals the previous bar's stored `pending_target_contracts`,
overridden to 0 exactly when a flatten condition fired on that bar; (iii) the
executed target does not depend on the bar's implied vol, which feeds only the
signal decision computed after the trades — so a bar's decision can affect
only the next bar's execution; (iv) along any run, each bar's pre-risk target
equals the pending target stored at the end of the previous bar, gated by that
bar's flatten flag. -/
theorem one_bar_delay_spec (args : Args) (mode : Mode) (logFn : ℚ → ℚ)
    (cfg : SignalConfig) :
    (∀ b : Bar,
      (barStep args mode logFn (initialLoopState cfg) b).2.executed_target_contracts
        = 0)
    ∧ (∀ (st : LoopState) (b : Bar),
        (barStep args mode logFn st b).2.target_after_flatten =
          if (barStep args mode logFn st b).2.flatten_for_risk = true then 0
          else st.pending_target_contracts)
    ∧ (∀ (st : LoopState) (b : Bar) (x : ℚ),
        (barStep args mode logFn st b).2.executed_target_contracts =
          (barStep args mode logFn st
            { b with iv := x }).2.executed_target_contracts)
    ∧ (∀ (st : LoopState) (bars : List Bar),
        List.Chain'
          (fun p q => q.2.target_after_flatten =
            if q.2.flatten_for_risk = true then 0 else p.1.pending_target_contracts)
          (runSteps args mode logFn st bars)) := by
  refine ⟨barStep_first_executed args mode logFn cfg,
    barStep_target_after_flatten args mode logFn,
    fun st b x => barStep_iv_noninterference args mode logFn st b x, ?_⟩
  intro st bars
  induction bars generalizing st with
  | nil => simp [runSteps]
  | cons b rest ih =>
    rw [runSteps]
    rw [List.chain'_cons']
    refine ⟨?_, ih _⟩
    intro q hq
    cases rest with
    | nil => simp [runSteps] at hq
    | cons c rest2 =>
      rw [runSteps] at hq
      simp only [List.head?_cons, Option.mem_def, Option.some.injEq] at hq
      subst hq
      exact barStep_target_after_flatten args mode logFn _ c

/-! ### Sign behaviour of the clamp and the risk check (adaptive no-flip) -/

/-- The clamp of a positive desired count is nonnegative. -/
theorem clamp_target_nonneg (rl : RiskLimits) (desired : Int)
    (spot mid delta gamma vega equity : ℚ) (hd : 0 < desired) :
    0 ≤ clamp_target_to_risk_limits rl desired spot mid delta gamma vega equity := by
  simp only [clamp_target_to_risk_limits, if_neg (by omega : ¬ desired = 0)]
  rw [if_pos hd, one_mul]
  exact Int.natCast_nonneg _

/-- The clamp of a negative desired count is nonpositive. -/
theorem clamp_target_nonpos (rl : RiskLimits) (desired : Int)
    (spot mid delta gamma vega equity : ℚ) (hd : desired < 0) :
    clamp_target_to_risk_limits rl desired spot mid delta gamma vega equity ≤ 0 := by
  simp only [clamp_target_to_risk_limits, if_neg (by omega : ¬ desired = 0)]
  rw [if_neg (by omega : ¬ desired > 0), neg_one_mul]
  exact neg_nonpos.mpr (Int.natCast_nonneg _)

/-- The risk check executes the target, the opening position, or (only when
the target's magnitude is not below the opening's) the clamp of the target. -/
theorem riskCheckTarget_fst_cases (rl : RiskLimits)
    (spot mid delta gamma vega equity : ℚ) (opening target : Int)
    (forced : Bool) :
    (riskCheckTarget rl spot mid delta gamma vega equity opening target
      forced).1 = target
    ∨ (riskCheckTarget rl spot mid delta gamma vega equity opening target
        forced).1 = opening
    ∨ ((riskCheckTarget rl spot mid delta gamma vega equity opening target
          forced).1 =
        clamp_target_to_risk_limits rl target spot mid delta gamma vega equity
        ∧ opening.natAbs ≤ target.natAbs) := by
  simp only [riskCheckTarget]
  split_ifs with f a r c
  · exact Or.inl rfl
  · exact Or.inl rfl
  · exact Or.inl rfl
  · exact Or.inr (Or.inr ⟨rfl, by omega⟩)
  · exact Or.inr (Or.inl rfl)

/-- The risk check never flips the sign of the position: if the incoming
target's sign is compatible with the opening position, so is the executed
target's. -/
theorem riskCheckTarget_no_flip (rl : RiskLimits)
    (spot mid delta gamma vega equity : ℚ) (opening target : Int)
    (forced : Bool)
    (h1 : 0 < opening → 0 ≤ target) (h2 : opening < 0 → target ≤ 0) :
    ¬(0 < opening ∧
      (riskCheckTarget rl spot mid delta gamma vega equity opening target
        forced).1 < 0)
    ∧ ¬(opening < 0 ∧ 0 <
      (riskCheckTarget rl spot mid delta gamma vega equity opening target
        forced).1) := by
  rcases riskCheckTarget_fst_cases rl spot mid delta gamma vega equity opening
    target forced with hc | hc | ⟨hc, hm⟩
  · constructor
    · rintro ⟨ho, hr⟩
      have := h1 ho
      omega
    · rintro ⟨ho, hr⟩
      have := h2 ho
      omega
  · constructor
    · rintro ⟨ho, hr⟩
      omega
    · rintro ⟨ho, hr⟩
      omega
  · constructor
    · rintro ⟨ho, hr⟩
      have ht : 0 < target := by
        have := h1 ho
        omega
      have := clamp_target_nonneg rl target spot mid delta gamma vega equity ht
      omega
    · rintro ⟨ho, hr⟩
      have ht : target < 0 := by
        have := h2 ho
        omega
      have := clamp_target_nonpos rl target spot mid delta gamma vega equity ht
      omega

set_option maxHeartbeats 4000000 in
/-- The post-trade position of a bar is the executed target. -/
theorem barStep_new_contracts (args : Args) (mode : Mode) (logFn : ℚ → ℚ)
    (st : LoopState) (b : Bar) :
    (barStep args mode logFn st b).1.option_contracts =
      (barStep args mode logFn st b).2.executed_target_contracts := rfl

/-- Executing a bar never flips the sign of the position directly, provided
the stored pending target is sign-compatible with the position (which the
adaptive strategy gate guarantees). -/
theorem barStep_exec_no_flip (args : Args) (mode : Mode) (logFn : ℚ → ℚ)
    (st : LoopState) (b : Bar)
    (hinv1 : 0 < st.option_contracts → 0 ≤ st.pending_target_contracts)
    (hinv2 : st.option_contracts < 0 → st.pending_target_contracts ≤ 0) :
    ¬(0 < st.option_contracts ∧
        (barStep args mode logFn st b).1.option_contracts < 0)
    ∧ ¬(st.option_contracts < 0 ∧
        0 < (barStep args mode logFn st b).1.option_contracts) := by
  rw [barStep_new_contracts, barStep_executed_eq]
  exact riskCheckTarget_no_flip _ _ _ _ _ _ _ _ _ _
    (fun ho => by
      have := hinv1 ho
      split_ifs <;> omega)
    (fun ho => by
      have := hinv2 ho
      split_ifs <;> omega)

set_option maxHeartbeats 8000000 in
/-- The adaptive strategy gate forbids a direct sign flip: the stored pending
target never strictly opposes the (post-trade) position's sign. -/
theorem strategyGate_adaptive_no_flip (args : Args) (d : SignalDecision)
    (ov : OverlayResult) (oc sp lp nt0 : Int) :
    ¬(oc < 0 ∧ 0 < (strategyGate args Mode.adaptive d ov oc sp lp nt0).1)
    ∧ ¬(0 < oc ∧ (strategyGate args Mode.adaptive d ov oc sp lp nt0).1 < 0) := by
  simp only [strategyGate]
  split_ifs <;> dsimp only <;> constructor <;> rintro ⟨h1, h2⟩ <;> omega

set_option maxHeartbeats 8000000 in
/-- In adaptive mode, the pending target produced by a bar is sign-compatible
with the bar's post-trade position. -/
theorem barStep_pending_no_flip (args : Args) (logFn : ℚ → ℚ)
    (st : LoopState) (b : Bar) :
    ¬((barStep args Mode.adaptive logFn st b).1.option_contracts < 0 ∧
        0 < (barStep args Mode.adaptive logFn st b).1.pending_target_contracts)
    ∧ ¬(0 < (barStep args Mode.adaptive logFn st b).1.option_contracts ∧
        (barStep args Mode.adaptive logFn st b).1.pending_target_contracts < 0) := by
  exact strategyGate_adaptive_no_flip args _ _ _ _ _ _

/-- C9: in adaptive mode, along any run from the initial loop state the
position never changes sign directly between consecutive bars — a sign change
must pass through a bar holding exactly 0 contracts, enforced by the strategy
gate that zeroes any pending target whose sign opposes the current
position. -/
theorem adaptive_no_sign_flip (args : Args) (logFn : ℚ → ℚ)
    (cfg : SignalConfig) (bars : List Bar) :
    List.Chain' (fun s t => ¬(0 < s ∧ t < 0) ∧ ¬(s < 0 ∧ 0 < t))
      ((initialLoopState cfg).option_contracts ::
        (runSteps args Mode.adaptive logFn (initialLoopState cfg) bars).map
          (fun p => p.1.option_contracts)) := by
  have main : ∀ (bs : List Bar) (st : LoopState),
      (0 < st.option_contracts → 0 ≤ st.pending_target_contracts) →
      (st.option_contracts < 0 → st.pending_target_contracts ≤ 0) →
      List.Chain' (fun s t => ¬(0 < s ∧ t < 0) ∧ ¬(s < 0 ∧ 0 < t))
        (st.option_contracts ::
          (runSteps args Mode.adaptive logFn st bs).map
            (fun p => p.1.option_contracts)) := by
    intro bs
    induction bs with
    | nil =>
      intro st _ _
      simp [runSteps]
    | cons b rest ih =>
      intro st h1 h2
      simp only [runSteps, List.map_cons]
      rw [List.chain'_cons]
      constructor
      · exact barStep_exec_no_flip args Mode.adaptive logFn st b h1 h2
      · have hp := barStep_pending_no_flip args logFn st b
        exact ih (barStep args Mode.adaptive logFn st b).1
          (fun h => by have hp2 := hp.2; omega)
          (fun h => by have hp1 := hp.1; omega)
  exact main bars (initialLoopState cfg)
    (fun h => by simp [initialLoopState] at h)
    (fun h => by simp [initialLoopState] at h)

/-! ### The adaptive tie-break (both enter counters at threshold) -/

set_option maxHeartbeats 8000000 in
/-- When the adaptive sub-state is FLAT, both enter predicates hold and both
persistence counters reach the enter-persist threshold this bar, the stance is
decided by the two strength scores: the higher side is selected when the gap
reaches `adaptive_confidence_buffer` (the source's `>=` comparison), and FLAT
otherwise; ties (`short_strength = long_strength` cannot reach a positive
buffer) go short. -/
theorem decideAdaptiveBody_flat_both_enter (s : RegimeSignalEngine) (m : Metrics)
    (hst : s.adaptive_state = Stance.FLAT)
    (hse : adaptiveShortEnterOk s.config m = true)
    (hle : adaptiveLongEnterOk s.config m = true)
    (hsc : max 1 s.config.adaptive_enter_persist_bars
        ≤ s.adaptive_short_enter_count + 1)
    (hlc : max 1 s.config.adaptive_enter_persist_bars
        ≤ s.adaptive_long_enter_count + 1) :
    (decideAdaptiveBody s m).stance =
      (if s.config.adaptive_confidence_buffer
          ≤ |adaptiveShortStrength s.config m - adaptiveLongStrength s.config m| then
        (if adaptiveLongStrength s.config m ≤ adaptiveShortStrength s.config m
         then Stance.SHORT_VOL else Stance.LONG_VOL)
       else Stance.FLAT) := by
  by_cases hb : s.config.adaptive_confidence_buffer
      ≤ |adaptiveShortStrength s.config m - adaptiveLongStrength s.config m| <;>
    by_cases hsl : adaptiveLongStrength s.config m ≤ adaptiveShortStrength s.config m <;>
    simp only [decideAdaptiveBody, hst, hse, hle, ge_iff_le, hsc, hlc, hb, hsl,
      and_self, if_true, if_false, ite_true, ite_false, reduceCtorEq,
      eq_self_iff_true, not_false_iff]

/-- C4: in adaptive mode with sub-state FLAT, when both enter predicates hold
and both persistence counters reach the enter-persist threshold on the same
bar, the engine computes the two linear strength scores and selects the
higher-scoring side when the absolute gap is greater than **or equal to**
`adaptive_confidence_buffer` (the source's `>=`), and stays FLAT only when the
gap is strictly below the buffer. -/
theorem adaptive_both_enter_tiebreak (s : RegimeSignalEngine) (m : Metrics)
    (hst : s.adaptive_state = Stance.FLAT)
    (hse : adaptiveShortEnterOk s.config m = true)
    (hle : adaptiveLongEnterOk s.config m = true)
    (hsc : max 1 s.config.adaptive_enter_persist_bars
        ≤ s.adaptive_short_enter_count + 1)
    (hlc : max 1 s.config.adaptive_enter_persist_bars
        ≤ s.adaptive_long_enter_count + 1) :
    (decideAdaptiveBody s m).stance =
      (if s.config.adaptive_confidence_buffer
          ≤ |adaptiveShortStrength s.config m - adaptiveLongStrength s.config m| then
        (if adaptiveLongStrength s.config m ≤ adaptiveShortStrength s.config m
         then Stance.SHORT_VOL else Stance.LONG_VOL)
       else Stance.FLAT) :=
  decideAdaptiveBody_flat_both_enter s m hst hse hle hsc hlc

/-- Witness for `adaptive_both_enter_tiebreak` at `engine4` / `m4`. -/
theorem adaptive_both_enter_tiebreak_witness :
    (decideAdaptiveBody engine4 m4).stance =
      (if cfg4.adaptive_confidence_buffer
          ≤ |adaptiveShortStrength cfg4 m4 - adaptiveLongStrength cfg4 m4| then
        (if adaptiveLongStrength cfg4 m4 ≤ adaptiveShortStrength cfg4 m4
         then Stance.SHORT_VOL else Stance.LONG_VOL)
       else Stance.FLAT) :=
  adaptive_both_enter_tiebreak engine4 m4 rfl
    (by norm_num [adaptiveShortEnterOk, engine4, cfg4, m4])
    (by norm_num [adaptiveLongEnterOk, engine4, cfg4, m4])
    (by decide) (by decide)

/-- Counterexample to the strict reading of C4: at `engine4` / `m4` both enter
predicates hold, the counters reach the threshold, and the strength gap equals
`adaptive_confidence_buffer` exactly — the claim's "strictly exceeds" demands
FLAT, but the code selects SHORT_VOL. -/
theorem adaptive_confidence_boundary_cex :
    |adaptiveShortStrength cfg4 m4 - adaptiveLongStrength cfg4 m4|
        = cfg4.adaptive_confidence_buffer
    ∧ adaptiveShortEnterOk cfg4 m4 = true
    ∧ adaptiveLongEnterOk cfg4 m4 = true
    ∧ engine4.adaptive_state = Stance.FLAT
    ∧ (decideAdaptiveBody engine4 m4).stance = Stance.SHORT_VOL := by
  refine ⟨?_, ?_, ?_, rfl, ?_⟩
  · norm_num [adaptiveShortStrength, adaptiveLongStrength, cfg4, m4]
  · norm_num [adaptiveShortEnterOk, cfg4, m4]
  · norm_num [adaptiveLongEnterOk, cfg4, m4]
  · rw [decideAdaptiveBody_flat_both_enter engine4 m4 rfl
      (by norm_num [adaptiveShortEnterOk, engine4, cfg4, m4])
      (by norm_num [adaptiveLongEnterOk, engine4, cfg4, m4])
      (by decide) (by decide)]
    norm_num [adaptiveShortStrength, adaptiveLongStrength, engine4, cfg4, m4]
    intro h
    rw [abs_of_pos (by norm_num : (0:ℚ) < 1/1000)] at h
    exact absurd h (lt_irrefl _)

/-! ### Short-mode cooldown protocol -/

set_option maxHeartbeats 2000000 in
/-- C8: in short-only mode, (a) a decision ending FLAT while the previous
stance was non-FLAT arms the cooldown to `cooldown_bars`; (b) past warmup,
with a positive cooldown and previous stance FLAT, the bar is forced FLAT and
the cooldown decrements by exactly one; (c) the counter never goes below
zero; (d) under the invariant that a positive cooldown implies previous
stance FLAT, a positive outgoing cooldown leaves the stored previous stance
FLAT, so entries are blocked until expiry. -/
theorem short_cooldown_spec (s : RegimeSignalEngine) (iv : ℚ) (rvs : List ℚ)
    (spot : ℚ) (ps rs : List ℚ) :
    ((s.decide Mode.short iv rvs spot ps rs).2.stance = Stance.FLAT →
      s.prev_stance ≠ Stance.FLAT → 0 < s.config.cooldown_bars →
      (s.decide Mode.short iv rvs spot ps rs).1.cooldown_remaining
        = s.config.cooldown_bars)
    ∧ (s.config.min_warmup_bars ≤ ps.length → 0 < s.cooldown_remaining →
        s.prev_stance = Stance.FLAT →
        (s.decide Mode.short iv rvs spot ps rs).2.stance = Stance.FLAT
        ∧ (s.decide Mode.short iv rvs spot ps rs).1.cooldown_remaining
            = s.cooldown_remaining - 1)
    ∧ (0 ≤ s.cooldown_remaining →
        0 ≤ (s.decide Mode.short iv rvs spot ps rs).1.cooldown_remaining)
    ∧ ((0 < s.cooldown_remaining → s.prev_stance = Stance.FLAT) →
        0 < (s.decide Mode.short iv rvs spot ps rs).1.cooldown_remaining →
        (s.decide Mode.short iv rvs spot ps rs).1.prev_stance = Stance.FLAT) := by
  refine ⟨?_, ?_, ?_, ?_⟩
  · intro hst hprev hcb
    simp only [RegimeSignalEngine.decide] at hst ⊢
    split_ifs at hst ⊢ <;> simp_all
  · intro hw hcd hprev
    simp only [RegimeSignalEngine.decide]
    split_ifs <;> first | (constructor <;> rfl) | omega | (simp_all <;> omega) | simp_all
  · intro hcd
    simp only [RegimeSignalEngine.decide]
    split_ifs <;> simp_all <;> omega
  · intro hinv hpos
    simp only [RegimeSignalEngine.decide] at hpos ⊢
    split_ifs at hpos ⊢ <;> simp_all <;> omega

/-- Witness for `short_cooldown_spec`: arming at `cooldownEngineA` (previous
stance SHORT_VOL, decision FLAT) sets the counter to `cooldown_bars`;
decrementing at `cooldownEngineB` (cooldown 5, previous stance FLAT) forces
FLAT and leaves 4. -/
theorem short_cooldown_spec_witness :
    ((cooldownEngineA.decide Mode.short 0 [1] 1 [1] []).1.cooldown_remaining
        = smallConfig.cooldown_bars)
    ∧ ((cooldownEngineB.decide Mode.short 0 [1] 1 [1] []).2.stance = Stance.FLAT
        ∧ (cooldownEngineB.decide Mode.short 0 [1] 1 [1] []).1.cooldown_remaining
            = 5 - 1) := by
  refine ⟨?_, ?_⟩
  · refine (short_cooldown_spec cooldownEngineA 0 [1] 1 [1] []).1 ?_ (by decide) (by decide)
    show ((({ config := smallConfig, prev_stance := Stance.SHORT_VOL } :
        RegimeSignalEngine).decide Mode.short 0 [1] 1 [1] []).2.stance = Stance.FLAT)
    norm_num [RegimeSignalEngine.decide, decideShortBody, baseMetrics,
      rollingMean, safePriceTrendStrength, SignalConfig.min_warmup_bars,
      smallConfig, List.cons_ne_nil]
    rfl
  · exact (short_cooldown_spec cooldownEngineB 0 [1] 1 [1] []).2.1
      (by decide) (by decide) rfl
